import Mathlib

/-!
# Phonebook: session and contact state synchronisation

A shallow embedding of the Redux core of the Phonebook client
(`src/redux/auth`, `src/redux/contacts`, `src/redux/filters`, `src/redux/store.js`)
and theorems about it.

* JavaScript `string | null` values are `Option String` (`none` is `null`).
* A slice reducer written with immer-style mutation is a pure function
  `State → Action → State`; an action no `addCase` matches returns the state as it is.
* `axios.defaults.headers.common.Authorization` and the requests handed to axios are
  explicit fields of `Axios`; the remote service is a parameter.
* An operation made with `createAsyncThunk` is two functions: `…Issue` (dispatch of
  `pending` and the payload creator up to its `await`) and `…Settle` (the rest of the
  payload creator and the dispatch of `fulfilled` or `rejected`).
-/

namespace Phonebook

/-! ## Data model -/

/-- The `user` object of the auth slice: `{ name, email }`, both `null` when unknown. -/
structure User where
  name : Option String
  email : Option String
deriving DecidableEq, Repr

/-- State of the auth slice (`initialState` of `src/redux/auth/slice.js`). -/
structure AuthState where
  user : User
  token : Option String
  isLoggedIn : Bool
  isRefreshing : Bool
deriving DecidableEq, Repr

/-- One contact as the backend returns it: `{ id, name, number }`. -/
structure Contact where
  id : String
  name : String
  number : String
deriving DecidableEq, Repr

/-- State of the contacts slice (`src/redux/contacts/slice.js`). -/
structure ContactsState where
  items : List Contact
  loading : Bool
  error : Option String
deriving DecidableEq, Repr

/-- State of the filters slice (`src/redux/filters/slice.js`). -/
structure FiltersState where
  name : String
deriving DecidableEq, Repr

/-- The `response.data` of `/users/signup` and `/users/login`: `{ user, token }`. -/
structure AuthPayload where
  user : User
  token : Option String
deriving DecidableEq, Repr

/-- The actions the three slices react to: the `pending`, `fulfilled` and `rejected`
action of each of the seven thunks, and `changeFilter`. A `rejected` action carries the
value given to `thunkAPI.rejectWithValue`. -/
inductive Action where
  | registerPending
  | registerFulfilled (payload : AuthPayload)
  | registerRejected (payload : String)
  | logInPending
  | logInFulfilled (payload : AuthPayload)
  | logInRejected (payload : String)
  | logOutPending
  | logOutFulfilled
  | logOutRejected (payload : String)
  | refreshUserPending
  | refreshUserFulfilled (payload : User)
  | refreshUserRejected (payload : String)
  | fetchContactsPending
  | fetchContactsFulfilled (payload : List Contact)
  | fetchContactsRejected (payload : String)
  | addContactPending
  | addContactFulfilled (payload : Contact)
  | addContactRejected (payload : String)
  | deleteContactPending
  | deleteContactFulfilled (payload : Contact)
  | deleteContactRejected (payload : String)
  | changeFilter (payload : String)
deriving DecidableEq, Repr

/-! ## The auth slice -/

/-- The `initialState` of the auth slice. -/
def initialState : AuthState :=
  { user := { name := none, email := none }
    token := none
    isLoggedIn := false
    isRefreshing := false }

/-- The reducer of `authSlice` (`extraReducers` of `src/redux/auth/slice.js`). -/
def authReducer (state : AuthState) : Action → AuthState
  | .registerFulfilled payload =>
      { state with user := payload.user, token := payload.token, isLoggedIn := true }
  | .registerPending => state
  | .registerRejected _ => state
  | .logInFulfilled payload =>
      { state with user := payload.user, token := payload.token, isLoggedIn := true }
  | .logInPending => state
  | .logInRejected _ => state
  | .logOutFulfilled =>
      { state with user := { name := none, email := none }, token := none, isLoggedIn := false }
  | .logOutPending => state
  | .logOutRejected _ =>
      { state with user := { name := none, email := none }, token := none, isLoggedIn := false }
  | .refreshUserPending => { state with isRefreshing := true }
  | .refreshUserFulfilled payload =>
      { state with user := payload, isLoggedIn := true, isRefreshing := false }
  | .refreshUserRejected _ => { state with isRefreshing := false }
  | _ => state

/-! ## The contacts slice -/

/-- The `initialState` of the contacts slice. -/
def contactsInitialState : ContactsState :=
  { items := [], loading := false, error := none }

/-- The reducer of the `phonebook` slice (`extraReducers` of
`src/redux/contacts/slice.js`). Of the logout actions it has a case for
`logOut.fulfilled` only. -/
def contactsReducer (state : ContactsState) : Action → ContactsState
  | .fetchContactsFulfilled payload => { state with loading := false, items := payload }
  | .fetchContactsPending => { state with loading := true, error := none }
  | .fetchContactsRejected payload => { state with loading := false, error := some payload }
  | .addContactFulfilled payload =>
      { state with loading := false, items := state.items ++ [payload] }
  | .addContactPending => { state with loading := true, error := none }
  | .addContactRejected payload => { state with loading := false, error := some payload }
  | .deleteContactFulfilled payload =>
      { state with loading := false, items := state.items.filter (fun item => item.id != payload.id) }
  | .deleteContactPending => { state with loading := true, error := none }
  | .deleteContactRejected payload => { state with loading := false, error := some payload }
  | .logOutFulfilled => { state with items := [], error := none, loading := false }
  | _ => state

/-! ## The filters slice and the store -/

/-- The `initialState` of the filters slice. -/
def filtersInitialState : FiltersState :=
  { name := "" }

/-- The reducer of `filterSlice` (`src/redux/filters/slice.js`). -/
def filtersReducer (state : FiltersState) : Action → FiltersState
  | .changeFilter payload => { state with name := payload }
  | _ => state

/-- The state of the store of `src/redux/store.js`. -/
structure RootState where
  auth : AuthState
  contacts : ContactsState
  filters : FiltersState
deriving DecidableEq, Repr

/-- The root reducer `configureStore` builds: every slice reducer sees every action. -/
def rootReducer (state : RootState) (action : Action) : RootState :=
  { auth := authReducer state.auth action
    contacts := contactsReducer state.contacts action
    filters := filtersReducer state.filters action }

/-- The store at process start, as `PersistGate` hands it to `App`: every slice in its
initial state, with the persisted `token` (the only whitelisted key of
`authPersistConfig`) merged into the auth slice. `none` is an empty token store. -/
def startup (persistedToken : Option String) : RootState :=
  { auth := { initialState with token := persistedToken }
    contacts := contactsInitialState
    filters := filtersInitialState }

/-! ## axios: the shared Authorization header and the requests made -/

/-- One request handed to axios. `authorization` is the value of
`axios.defaults.headers.common.Authorization` at the time of the call (`none` while the
header was never set); `data` is the request body, an object of string fields. -/
structure Request where
  method : String
  url : String
  authorization : Option String
  data : Option (List (String × String))
deriving DecidableEq, Repr

/-- The part of the global `axios` object the operations use: the default Authorization
header and, as a log, the requests made so far (oldest first). -/
structure Axios where
  authorization : Option String
  sent : List Request
deriving DecidableEq, Repr

/-- JavaScript string conversion of a `string | null` inside a template literal. -/
def jsString : Option String → String
  | some s => s
  | none => "null"

/-- The helper `setAuthHeader` of `src/redux/auth/operations.js`:
the header becomes the text "Bearer " followed by the token. -/
def setAuthHeader (token : Option String) (ax : Axios) : Axios :=
  { ax with authorization := some ("Bearer " ++ jsString token) }

/-- The helper `clearAuthHeader` of `src/redux/auth/operations.js`:
the header becomes the empty string. -/
def clearAuthHeader (ax : Axios) : Axios :=
  { ax with authorization := some "" }

/-- The request `axios.get/post/delete (url, data)` makes with the current defaults. -/
def Axios.prepare (ax : Axios) (method url : String) (data : Option (List (String × String))) :
    Request :=
  { method := method, url := url, authorization := ax.authorization, data := data }

/-- The store together with the global axios object. -/
structure World where
  store : RootState
  axios : Axios
deriving DecidableEq, Repr

/-- The world at process start: the rehydrated store, no Authorization header, no
request made. -/
def World.startup (persistedToken : Option String) : World :=
  { store := Phonebook.startup persistedToken, axios := { authorization := none, sent := [] } }

/-- Dispatch of one action to the store. -/
def World.dispatch (w : World) (action : Action) : World :=
  { w with store := rootReducer w.store action }

/-- A request is made: it is built from the current defaults and logged. The request is
returned as well, for the remote service to answer. -/
def World.request (w : World) (method url : String) (data : Option (List (String × String))) :
    World × Request :=
  let req := w.axios.prepare method url data
  ({ w with axios := { w.axios with sent := w.axios.sent ++ [req] } }, req)

/-- The remote service, one answering function per endpoint the session operations
call. An answer is `response.data` or, when the call fails (transport error or error
status), the `message` of the error axios throws. -/
structure Server where
  signup : Request → Except String AuthPayload
  login : Request → Except String AuthPayload
  logout : Request → Except String Unit
  current : Request → Except String User

/-! ## The session operations (`src/redux/auth/operations.js`)

`createAsyncThunk` dispatches `pending`, runs the payload creator, and dispatches
`fulfilled` with the returned value or, for `thunkAPI.rejectWithValue (v)`, `rejected`
with payload `v`; the promise of the dispatch resolves to that last action. -/

/-- Operation `register` up to `await axios.post ("/users/signup", credentials)`. -/
def registerIssue (credentials : List (String × String)) (w : World) : World × Request :=
  (w.dispatch .registerPending).request "POST" "/users/signup" (some credentials)

/-- Operation `register` from the answer on: `setAuthHeader (response.data.token)` and
`fulfilled` on success, `rejectWithValue (error.message)` in the `catch`. -/
def registerSettle (response : Except String AuthPayload) (w : World) : World × Action :=
  match response with
  | .ok data =>
      ({ w with axios := setAuthHeader data.token w.axios }.dispatch (.registerFulfilled data),
        .registerFulfilled data)
  | .error message => (w.dispatch (.registerRejected message), .registerRejected message)

/-- Operation `register`, run against a service with nothing else in between. -/
def register (server : Server) (credentials : List (String × String)) (w : World) :
    World × Action :=
  let issued := registerIssue credentials w
  registerSettle (server.signup issued.2) issued.1

/-- Operation `logIn` up to `await axios.post ("/users/login", credentials)`. -/
def logInIssue (credentials : List (String × String)) (w : World) : World × Request :=
  (w.dispatch .logInPending).request "POST" "/users/login" (some credentials)

/-- Operation `logIn` from the answer on. -/
def logInSettle (response : Except String AuthPayload) (w : World) : World × Action :=
  match response with
  | .ok data =>
      ({ w with axios := setAuthHeader data.token w.axios }.dispatch (.logInFulfilled data),
        .logInFulfilled data)
  | .error message => (w.dispatch (.logInRejected message), .logInRejected message)

/-- Operation `logIn`, run against a service with nothing else in between. -/
def logIn (server : Server) (credentials : List (String × String)) (w : World) :
    World × Action :=
  let issued := logInIssue credentials w
  logInSettle (server.login issued.2) issued.1

/-- Operation `logOut` up to `await axios.post ("/users/logout")`. -/
def logOutIssue (w : World) : World × Request :=
  (w.dispatch .logOutPending).request "POST" "/users/logout" none

/-- Operation `logOut` from the answer on: `clearAuthHeader ()` stands after the
`await` inside the `try`, so it runs on success only; the `catch` returns
`rejectWithValue (error.message)` and nothing else. -/
def logOutSettle (response : Except String Unit) (w : World) : World × Action :=
  match response with
  | .ok _ => ({ w with axios := clearAuthHeader w.axios }.dispatch .logOutFulfilled, .logOutFulfilled)
  | .error message => (w.dispatch (.logOutRejected message), .logOutRejected message)

/-- Operation `logOut`, run against a service with nothing else in between. -/
def logOut (server : Server) (w : World) : World × Action :=
  let issued := logOutIssue w
  logOutSettle (server.logout issued.2) issued.1

/-- Operation `refreshUser` up to its first suspension. `pending` is dispatched, then the
payload creator reads `state.auth.token`: when it is `null` the creator returns at once
and no request is made (`none`); otherwise `setAuthHeader (persistedToken)` runs and
`GET /users/current` is sent. -/
def refreshUserIssue (w : World) : World × Option Request :=
  let w1 := w.dispatch .refreshUserPending
  match w1.store.auth.token with
  | none => (w1, none)
  | some persistedToken =>
      let sent := { w1 with axios := setAuthHeader (some persistedToken) w1.axios }.request
        "GET" "/users/current" none
      (sent.1, some sent.2)

/-- Operation `refreshUser` from its first suspension on. `none` is the run that made no
request: it ends in `rejectWithValue` of the text "Unable to fetch user". -/
def refreshUserSettle (response : Option (Except String User)) (w : World) : World × Action :=
  match response with
  | none =>
      (w.dispatch (.refreshUserRejected "Unable to fetch user"),
        .refreshUserRejected "Unable to fetch user")
  | some (.ok data) => (w.dispatch (.refreshUserFulfilled data), .refreshUserFulfilled data)
  | some (.error message) =>
      (w.dispatch (.refreshUserRejected message), .refreshUserRejected message)

/-- Operation `refreshUser`, run against a service with nothing else in between. -/
def refreshUser (server : Server) (w : World) : World × Action :=
  let issued := refreshUserIssue w
  refreshUserSettle (issued.2.map server.current) issued.1

/-! ## Interleaved session operations

Several operations may be outstanding at once. A `Session` is the world together with
the operations that have dispatched `pending` and not yet completed; an `Event` is the
start of an operation or the arrival of one answer. -/

/-- A session operation between its `pending` action and its completion. For
`refreshUser` the flag says whether `GET /users/current` was sent
(`false`: the token read at the start was `null`). -/
inductive Ticket where
  | register
  | logIn
  | logOut
  | refreshUser (requested : Bool)
deriving DecidableEq, Repr

/-- The world and the operations in flight. -/
structure Session where
  world : World
  inFlight : List Ticket
deriving DecidableEq, Repr

/-- The session at process start: nothing in flight. -/
def Session.startup (persistedToken : Option String) : Session :=
  { world := World.startup persistedToken, inFlight := [] }

/-- One event of a session: an operation is started, or the answer to an outstanding
operation arrives (for `refreshUser`, `none` completes the run that made no request). -/
inductive Event where
  | registerIssue (credentials : List (String × String))
  | registerSettle (response : Except String AuthPayload)
  | logInIssue (credentials : List (String × String))
  | logInSettle (response : Except String AuthPayload)
  | logOutIssue
  | logOutSettle (response : Except String Unit)
  | refreshUserIssue
  | refreshUserSettle (response : Option (Except String User))

/-- An operation that is in flight completes: its ticket is removed. An answer to an
operation that is not in flight is no step (`none`). -/
def Session.settle (s : Session) (ticket : Ticket) (w : World) : Option Session :=
  if ticket ∈ s.inFlight then some { world := w, inFlight := s.inFlight.erase ticket } else none

/-- One step of a session. -/
def Session.step (s : Session) : Event → Option Session
  | .registerIssue credentials =>
      some { world := (registerIssue credentials s.world).1, inFlight := .register :: s.inFlight }
  | .registerSettle response => s.settle .register (registerSettle response s.world).1
  | .logInIssue credentials =>
      some { world := (logInIssue credentials s.world).1, inFlight := .logIn :: s.inFlight }
  | .logInSettle response => s.settle .logIn (logInSettle response s.world).1
  | .logOutIssue =>
      some { world := (logOutIssue s.world).1, inFlight := .logOut :: s.inFlight }
  | .logOutSettle response => s.settle .logOut (logOutSettle response s.world).1
  | .refreshUserIssue =>
      let issued := refreshUserIssue s.world
      some { world := issued.1, inFlight := .refreshUser issued.2.isSome :: s.inFlight }
  | .refreshUserSettle response =>
      s.settle (.refreshUser response.isSome) (refreshUserSettle response s.world).1

/-- Runs a list of events; every event must satisfy `guard` in the session it meets and
be a step of it. -/
def Session.run (guard : Session → Event → Bool) (s : Session) : List Event → Option Session
  | [] => some s
  | e :: es =>
      if guard s e then
        match s.step e with
        | some s1 => Session.run guard s1 es
        | none => none
      else none

/-- Guard: a refresh is started only in a state whose token is not `null`. -/
def refreshReadsToken (s : Session) : Event → Bool
  | .refreshUserIssue => s.world.store.auth.token.isSome
  | _ => true

/-- Guard: a successful signup or login answer carries a token that is not `null`. -/
def answerCarriesToken : Event → Bool
  | .registerSettle (.ok data) => data.token.isSome
  | .logInSettle (.ok data) => data.token.isSome
  | _ => true

/-- Guard: no logout completes while a refresh awaits the answer to `GET /users/current`. -/
def logOutClearOfRefresh (s : Session) : Event → Bool
  | .logOutSettle _ => !(s.inFlight.contains (.refreshUser true))
  | _ => true

/-- The interleavings of register, login, logout and refresh in which refresh is started
only with a token and successful answers carry a token. -/
def sessionGuard (s : Session) (e : Event) : Bool :=
  refreshReadsToken s e && answerCarriesToken e

/-- The interleavings of `sessionGuard` in which, in addition, no logout completes while
a refresh request is outstanding. -/
def orderedGuard (s : Session) (e : Event) : Bool :=
  sessionGuard s e && logOutClearOfRefresh s e

/-- The invariant carried along a run: a logged-in session has a token, and so has a
session in which a refresh request is outstanding. -/
def TokenInv (s : Session) : Prop :=
  (s.world.store.auth.isLoggedIn = true → s.world.store.auth.token ≠ none) ∧
  (Ticket.refreshUser true ∈ s.inFlight → s.world.store.auth.token ≠ none)

/-- An example run: a login that succeeds, then a refresh that is accepted. -/
def loginThenRefresh : List Event :=
  [.logInIssue [("email", "a@b.com"), ("password", "secret1")],
    .logInSettle (.ok { user := { name := some "A", email := none }, token := some "tok1" }),
    .refreshUserIssue,
    .refreshUserSettle (some (.ok { name := some "A", email := some "a@b.com" }))]

/-- The session at the end of `loginThenRefresh`, run from the initial state. -/
def loginThenRefreshEnd : Session :=
  { world :=
      { store :=
          { auth :=
              { user := { name := some "A", email := some "a@b.com" }, token := some "tok1",
                isLoggedIn := true, isRefreshing := false }
            contacts := { items := [], loading := false, error := none }
            filters := { name := "" } }
        axios :=
          { authorization := some "Bearer tok1"
            sent :=
              [{ method := "POST", url := "/users/login", authorization := none,
                 data := some [("email", "a@b.com"), ("password", "secret1")] },
               { method := "GET", url := "/users/current", authorization := some "Bearer tok1",
                 data := none }] } }
    inFlight := [] }

/-- An example service that accepts every request. -/
def acceptingServer : Server :=
  { signup := fun _ => .ok { user := { name := some "A", email := some "a@b.com" }, token := some "tok1" }
    login := fun _ => .ok { user := { name := some "A", email := some "a@b.com" }, token := some "tok1" }
    logout := fun _ => .ok ()
    current := fun _ => .ok { name := some "A", email := some "a@b.com" } }

/-! ## The contact operations (`src/redux/contacts/operations.js`) -/

/-- The remote contact service, one answering function per endpoint: `GET /contacts`,
`POST /contacts` and `DELETE /contacts/:id`. An answer is `response.data` or the
`message` of the error axios throws. -/
structure ContactsServer where
  list : Request → Except String (List Contact)
  create : Request → Except String Contact
  remove : Request → Except String Contact

/-- Operation `fetchContacts` up to `await axios.get ("/contacts")`. -/
def fetchContactsIssue (w : World) : World × Request :=
  (w.dispatch .fetchContactsPending).request "GET" "/contacts" none

/-- Operation `fetchContacts` from the answer on: `fulfilled` with `response.data`, or
`rejectWithValue (error.message)` in the `catch`. -/
def fetchContactsSettle (response : Except String (List Contact)) (w : World) : World × Action :=
  match response with
  | .ok data => (w.dispatch (.fetchContactsFulfilled data), .fetchContactsFulfilled data)
  | .error message =>
      (w.dispatch (.fetchContactsRejected message), .fetchContactsRejected message)

/-- Operation `fetchContacts`, run against a service with nothing else in between. -/
def fetchContacts (server : ContactsServer) (w : World) : World × Action :=
  let issued := fetchContactsIssue w
  fetchContactsSettle (server.list issued.2) issued.1

/-- Operation `addContact` up to `await axios.post ("/contacts", newContact)`. -/
def addContactIssue (newContact : List (String × String)) (w : World) : World × Request :=
  (w.dispatch .addContactPending).request "POST" "/contacts" (some newContact)

/-- Operation `addContact` from the answer on. -/
def addContactSettle (response : Except String Contact) (w : World) : World × Action :=
  match response with
  | .ok data => (w.dispatch (.addContactFulfilled data), .addContactFulfilled data)
  | .error message => (w.dispatch (.addContactRejected message), .addContactRejected message)

/-- Operation `addContact`, run against a service with nothing else in between. -/
def addContact (server : ContactsServer) (newContact : List (String × String)) (w : World) :
    World × Action :=
  let issued := addContactIssue newContact w
  addContactSettle (server.create issued.2) issued.1

/-- Operation `deleteContact` up to `await axios.delete` of the path "/contacts/"
followed by `contactId`. -/
def deleteContactIssue (contactId : String) (w : World) : World × Request :=
  (w.dispatch .deleteContactPending).request "DELETE" ("/contacts/" ++ contactId) none

/-- Operation `deleteContact` from the answer on. -/
def deleteContactSettle (response : Except String Contact) (w : World) : World × Action :=
  match response with
  | .ok data => (w.dispatch (.deleteContactFulfilled data), .deleteContactFulfilled data)
  | .error message =>
      (w.dispatch (.deleteContactRejected message), .deleteContactRejected message)

/-- Operation `deleteContact`, run against a service with nothing else in between. -/
def deleteContact (server : ContactsServer) (contactId : String) (w : World) : World × Action :=
  let issued := deleteContactIssue contactId w
  deleteContactSettle (server.remove issued.2) issued.1

/-! ## Selectors (`src/redux/contacts/selectors.js`, `src/redux/filters/selectors.js`) -/

/-- Selector `selectContacts`. -/
def selectContacts (state : RootState) : List Contact :=
  state.contacts.items

/-- Selector `selectNameFilter`. -/
def selectNameFilter (state : RootState) : String :=
  state.filters.name

/-- JavaScript `String.prototype.includes`: `search` occurs in `s` as a contiguous run of
characters. -/
def includes (s search : String) : Bool :=
  decide (search.data <:+: s.data)

/-- The result function of `selectFilteredContacts`. JavaScript's
`String.prototype.toLowerCase` is the parameter `toLowerCase`; `!nameFilter` holds of a
string exactly when it is empty. -/
def selectFilteredContacts.resultFunc (toLowerCase : String → String) (contacts : List Contact)
    (nameFilter : String) : List Contact :=
  if nameFilter = "" then contacts
  else contacts.filter (fun contact => includes (toLowerCase contact.name) (toLowerCase nameFilter))

/-- Selector `selectFilteredContacts`: the result function applied to `selectContacts`
and `selectNameFilter` (`createSelector` adds memoisation only). -/
def selectFilteredContacts (toLowerCase : String → String) (state : RootState) : List Contact :=
  selectFilteredContacts.resultFunc toLowerCase (selectContacts state) (selectNameFilter state)

/-- Lower-casing of the letters A to Z, every other character kept: what
`toLowerCase` does on ASCII text. Used in examples only. -/
def asciiLowerCase (s : String) : String :=
  String.mk (s.data.map Char.toLower)

/-! ## Interleaved contact operations

The contact list under overlapping calls: a `Repo` is the world together with the contact
operations (and logouts) that have dispatched `pending` and not yet completed. -/

/-- A contact operation, or a logout, between its `pending` action and its completion. -/
inductive ContactTicket where
  | fetchContacts
  | addContact
  | deleteContact
  | logOut
deriving DecidableEq, Repr

/-- The world and the contact operations in flight. -/
structure Repo where
  world : World
  inFlight : List ContactTicket
deriving DecidableEq, Repr

/-- The repository at process start: the initial store, nothing in flight. -/
def Repo.startup : Repo :=
  { world := World.startup none, inFlight := [] }

/-- One event of the repository: an operation is started, or the answer to an
outstanding operation arrives. -/
inductive ContactEvent where
  | fetchContactsIssue
  | fetchContactsSettle (response : Except String (List Contact))
  | addContactIssue (newContact : List (String × String))
  | addContactSettle (response : Except String Contact)
  | deleteContactIssue (contactId : String)
  | deleteContactSettle (response : Except String Contact)
  | logOutIssue
  | logOutSettle (response : Except String Unit)

/-- An operation that is in flight completes: its ticket is removed. An answer to an
operation that is not in flight is no step (`none`). -/
def Repo.settle (s : Repo) (ticket : ContactTicket) (w : World) : Option Repo :=
  if ticket ∈ s.inFlight then some { world := w, inFlight := s.inFlight.erase ticket } else none

/-- One step of the repository. -/
def Repo.step (s : Repo) : ContactEvent → Option Repo
  | .fetchContactsIssue =>
      some { world := (fetchContactsIssue s.world).1, inFlight := .fetchContacts :: s.inFlight }
  | .fetchContactsSettle response =>
      s.settle .fetchContacts (fetchContactsSettle response s.world).1
  | .addContactIssue newContact =>
      some { world := (addContactIssue newContact s.world).1, inFlight := .addContact :: s.inFlight }
  | .addContactSettle response => s.settle .addContact (addContactSettle response s.world).1
  | .deleteContactIssue contactId =>
      some { world := (deleteContactIssue contactId s.world).1,
             inFlight := .deleteContact :: s.inFlight }
  | .deleteContactSettle response =>
      s.settle .deleteContact (deleteContactSettle response s.world).1
  | .logOutIssue =>
      some { world := (logOutIssue s.world).1, inFlight := .logOut :: s.inFlight }
  | .logOutSettle response => s.settle .logOut (logOutSettle response s.world).1

/-- Runs a list of events; every event must satisfy `guard` in the state it meets and be
a step of it. -/
def Repo.run (guard : Repo → ContactEvent → Bool) (s : Repo) : List ContactEvent → Option Repo
  | [] => some s
  | e :: es =>
      if guard s e then
        match s.step e with
        | some s1 => Repo.run guard s1 es
        | none => none
      else none

/-- Guard: the event belongs to a fetch, add or delete (no logout). -/
def contactCallsOnly (_s : Repo) : ContactEvent → Bool
  | .logOutIssue => false
  | .logOutSettle _ => false
  | _ => true

/-- Guard: fetch, add and delete only, and a call is started only while none is
outstanding. -/
def oneCallAtATime (s : Repo) : ContactEvent → Bool
  | .fetchContactsIssue => s.inFlight.isEmpty
  | .addContactIssue _ => s.inFlight.isEmpty
  | .deleteContactIssue _ => s.inFlight.isEmpty
  | .logOutIssue => false
  | .logOutSettle _ => false
  | _ => true

/-- Guard that admits every event. -/
def anyEvent (_s : Repo) (_e : ContactEvent) : Bool :=
  true

/-! ### Successful adds and deletes in any completion order -/

/-- A successful mutation of the list: the `fulfilled` action of an add (with the created
contact) or of a delete (with the deleted contact the service returned). -/
inductive Mutation where
  | add (created : Contact)
  | delete (deleted : Contact)
deriving DecidableEq, Repr

/-- The `fulfilled` action of a mutation. -/
def Mutation.action : Mutation → Action
  | .add created => .addContactFulfilled created
  | .delete deleted => .deleteContactFulfilled deleted

/-- The contact list state after the `fulfilled` actions of `ms`, applied in list order. -/
def applyFulfilled (state : ContactsState) (ms : List Mutation) : ContactsState :=
  (ms.map Mutation.action).foldl contactsReducer state

/-- The contacts the adds of `ms` created. -/
def addedContacts : List Mutation → List Contact
  | [] => []
  | .add created :: ms => created :: addedContacts ms
  | .delete _ :: ms => addedContacts ms

/-- The ids the deletes of `ms` removed. -/
def deletedIds : List Mutation → List String
  | [] => []
  | .add _ :: ms => deletedIds ms
  | .delete deleted :: ms => deleted.id :: deletedIds ms

/-! ### Unique ids -/

/-- The ids of a list of contacts are pairwise distinct. -/
def distinctIds (contacts : List Contact) : Bool :=
  decide (contacts.map Contact.id).Nodup

/-- The contacts created by the successful adds of a run. -/
def createdIn : List ContactEvent → List Contact
  | [] => []
  | .addContactSettle (.ok data) :: es => data :: createdIn es
  | _ :: es => createdIn es

/-- The lists returned by the successful fetches of a run. -/
def fetchedIn : List ContactEvent → List (List Contact)
  | [] => []
  | .fetchContactsSettle (.ok data) :: es => data :: fetchedIn es
  | _ :: es => fetchedIn es

/-- The assumptions on the service for a run: with `existing` the contacts stored before
the run, the ids of the stored and the created contacts are pairwise distinct (every
created contact got an id no other contact has), and every fetched list has pairwise
distinct ids and holds stored or created contacts only. -/
def serviceAssignsFreshIds (existing : List Contact) (es : List ContactEvent) : Bool :=
  distinctIds (existing ++ createdIn es) &&
    (fetchedIn es).all (fun l => distinctIds l && l.all (fun c => (existing ++ createdIn es).contains c))

/-- The ids are new to the client: walking the run with the ids `seen` so far (in fetched
lists and created contacts), every fetched list has pairwise distinct ids and every
created contact has an id not seen before its add completes. -/
def idsNewToClient (seen : List String) : List ContactEvent → Bool
  | [] => true
  | .fetchContactsSettle (.ok data) :: es =>
      distinctIds data && idsNewToClient (data.map Contact.id ++ seen) es
  | .addContactSettle (.ok data) :: es =>
      !(seen.contains data.id) && idsNewToClient (data.id :: seen) es
  | _ :: es => idsNewToClient seen es

/-- An example run: a fetch that succeeds, then an add that is started and still
outstanding. -/
def fetchThenAdd : List ContactEvent :=
  [.fetchContactsIssue,
    .fetchContactsSettle (.ok [{ id := "1", name := "John Doe", number := "555" }]),
    .addContactIssue [("name", "Ann"), ("number", "556")]]

/-- The repository at the end of `fetchThenAdd`, run from process start. -/
def fetchThenAddEnd : Repo :=
  { world :=
      { store :=
          { auth := initialState
            contacts :=
              { items := [{ id := "1", name := "John Doe", number := "555" }], loading := true,
                error := none }
            filters := { name := "" } }
        axios :=
          { authorization := none
            sent :=
              [{ method := "GET", url := "/contacts", authorization := none, data := none },
               { method := "POST", url := "/contacts", authorization := none,
                 data := some [("name", "Ann"), ("number", "556")] }] } }
    inFlight := [.addContact] }

/-- An example contact. -/
def johnDoe : Contact :=
  { id := "1", name := "John Doe", number := "555" }

/-- Another example contact. -/
def ann : Contact :=
  { id := "2", name := "Ann", number := "556" }

/-- An example run: an add and a fetch overlap; the answer to the add arrives first, then
the fetched list, which holds the created contact. -/
def addThenFetch : List ContactEvent :=
  [.addContactIssue [("name", "John Doe"), ("number", "555")],
    .fetchContactsIssue,
    .addContactSettle (.ok johnDoe),
    .fetchContactsSettle (.ok [johnDoe])]

/-- The repository at the end of `addThenFetch`, run from process start. -/
def addThenFetchEnd : Repo :=
  { world :=
      { store :=
          { auth := initialState
            contacts := { items := [johnDoe], loading := false, error := none }
            filters := { name := "" } }
        axios :=
          { authorization := none
            sent :=
              [{ method := "POST", url := "/contacts", authorization := none,
                 data := some [("name", "John Doe"), ("number", "555")] },
               { method := "GET", url := "/contacts", authorization := none, data := none }] } }
    inFlight := [] }

/-! ## Route guards (`src/components/PrivateRoute`, `src/components/RestrictedRoute`) -/

/-- Selector `selectIsLoggedIn` (`src/redux/auth/selectors.js`). -/
def selectIsLoggedIn (state : RootState) : Bool :=
  state.auth.isLoggedIn

/-- Selector `selectIsRefreshing` (`src/redux/auth/selectors.js`). -/
def selectIsRefreshing (state : RootState) : Bool :=
  state.auth.isRefreshing

/-- What a guard renders: a `Navigate` element to a path (the fallback) or the component
it was given (the target). -/
inductive Element (α : Type) where
  | navigate (path : String)
  | component (c : α)
deriving DecidableEq, Repr

/-- Component `PrivateRoute`. The prop `redirectTo` has the default "/" (`none` is the
prop left out). -/
def PrivateRoute {α : Type} (Component : α) (redirectTo : Option String) (state : RootState) :
    Element α :=
  let isLoggedIn := selectIsLoggedIn state
  let isRefreshing := selectIsRefreshing state
  let shouldRedirect := !isLoggedIn && !isRefreshing
  if shouldRedirect then .navigate (redirectTo.getD "/") else .component Component

/-- Component `RestrictedRoute`. The prop `redirectTo` has the default "/". -/
def RestrictedRoute {α : Type} (Component : α) (redirectTo : Option String) (state : RootState) :
    Element α :=
  let isLoggedIn := selectIsLoggedIn state
  if isLoggedIn then .navigate (redirectTo.getD "/") else .component Component

/-- The pages the routes of `App.jsx` render. -/
inductive Page where
  | home
  | registration
  | login
  | contacts
  | notFound
deriving DecidableEq, Repr

/-- The `Routes` of `App.jsx`: the element rendered for a path. -/
def App.routes (path : String) (state : RootState) : Element Page :=
  if path = "/" then .component .home
  else if path = "/register" then RestrictedRoute .registration (some "/contacts") state
  else if path = "/login" then RestrictedRoute .login (some "/contacts") state
  else if path = "/contacts" then PrivateRoute .contacts (some "/login") state
  else .component .notFound

/-- Follows `Navigate` elements from a path, at most `fuel` routes deep: the page that
ends up rendered, or `none` when a `Navigate` is still pending after `fuel` routes. -/
def App.follow : Nat → String → RootState → Option Page
  | 0, _, _ => none
  | fuel + 1, path, state =>
      match App.routes path state with
      | .component c => some c
      | .navigate target => App.follow fuel target state

/-! ## The add form (`src/components/ContactForm/ContactForm.jsx`) -/

/-- The duplicate test of `handleSubmit`: some contact has the submitted name up to
`toLowerCase`. -/
def isDuplicate (toLowerCase : String → String) (contacts : List Contact) (name : String) : Bool :=
  contacts.any (fun contact => toLowerCase contact.name == toLowerCase name)

/-- What a submission of the add form did: it was stopped as a duplicate (with the text of
the error toast), or `addContact` was dispatched and its request sent. -/
inductive Submission where
  | duplicate (toast : String)
  | dispatched (request : Request)
deriving DecidableEq, Repr

/-- Function `handleSubmit` of `ContactForm` up to its `await`: on a duplicate name it
shows the toast and returns; otherwise it dispatches `addContact (values)`. -/
def handleSubmitIssue (toLowerCase : String → String) (name number : String) (w : World) :
    World × Submission :=
  if isDuplicate toLowerCase (selectContacts w.store) name then
    (w, .duplicate (name ++ " is already in your contacts!"))
  else
    let issued := addContactIssue [("name", name), ("number", number)] w
    (issued.1, .dispatched issued.2)

/-! ## Persistence (`src/redux/store.js`)

`persistReducer (authPersistConfig, authReducer)` writes the whitelisted keys of the auth
slice to storage and, at the next process start, merges the stored keys into the
initial state of the slice. The contacts and filters reducers are not wrapped. -/

/-- The `whitelist` of `authPersistConfig`. -/
def authPersistConfig.whitelist : List String :=
  ["token"]

/-- What storage holds under the key of the auth slice: each key of the slice, present
(`some`) when it was written. -/
structure PersistedAuth where
  user : Option User
  token : Option (Option String)
  isLoggedIn : Option Bool
  isRefreshing : Option Bool
deriving DecidableEq, Repr

/-- Writing the auth slice to storage: the keys in the whitelist and no other. -/
def persistAuth (whitelist : List String) (state : AuthState) : PersistedAuth :=
  { user := if "user" ∈ whitelist then some state.user else none
    token := if "token" ∈ whitelist then some state.token else none
    isLoggedIn := if "isLoggedIn" ∈ whitelist then some state.isLoggedIn else none
    isRefreshing := if "isRefreshing" ∈ whitelist then some state.isRefreshing else none }

/-- Rehydration of the auth slice: the stored keys over the initial state. -/
def rehydrateAuth (stored : PersistedAuth) : AuthState :=
  { user := stored.user.getD initialState.user
    token := stored.token.getD initialState.token
    isLoggedIn := stored.isLoggedIn.getD initialState.isLoggedIn
    isRefreshing := stored.isRefreshing.getD initialState.isRefreshing }

/-- What survives a restart of a store state: the auth slice through the whitelist. -/
def persist (state : RootState) : PersistedAuth :=
  persistAuth authPersistConfig.whitelist state.auth

/-- The store at the next process start: the auth slice rehydrated, the contacts and
filters slices from their initial state. -/
def rehydrate (stored : PersistedAuth) : RootState :=
  { auth := rehydrateAuth stored
    contacts := contactsInitialState
    filters := filtersInitialState }

/-! ## Mutual exclusion of the session states -/

/-- Guard: a refresh is started only while nobody is logged in, and a login or a
registration succeeds only while no refresh is marked in progress. -/
def exclusiveGuard (s : Session) : Event → Bool
  | .refreshUserIssue => !s.world.store.auth.isLoggedIn
  | .registerSettle (.ok _) => !s.world.store.auth.isRefreshing
  | .logInSettle (.ok _) => !s.world.store.auth.isRefreshing
  | _ => true

/-- Guard that admits every session event. -/
def anySessionEvent (_s : Session) (_e : Event) : Bool :=
  true

/-- An example run: the startup refresh is accepted, the user logs out, then logs in. -/
def refreshLogoutLogin : List Event :=
  [.refreshUserIssue,
    .refreshUserSettle (some (.ok { name := some "A", email := some "a@b.com" })),
    .logOutIssue,
    .logOutSettle (.ok ()),
    .logInIssue [("email", "a@b.com"), ("password", "secret1")],
    .logInSettle (.ok { user := { name := some "A", email := some "a@b.com" }, token := some "tok2" })]

/-- An example world: the header set to "Bearer tok1", the list holding one contact
named "john doe" in lower case, no request made. -/
def lowerJohnWorld : World :=
  { store :=
      { auth := initialState
        contacts :=
          { items := [{ id := "1", name := "john doe", number := "555" }]
            loading := false
            error := none }
        filters := filtersInitialState }
    axios := { authorization := some "Bearer tok1", sent := [] } }

/-- The session at the end of `refreshLogoutLogin`, run from startup with the persisted
token "tok1". -/
def refreshLogoutLoginEnd : Session :=
  { world :=
      { store :=
          { auth :=
              { user := { name := some "A", email := some "a@b.com" }, token := some "tok2",
                isLoggedIn := true, isRefreshing := false }
            contacts := { items := [], loading := false, error := none }
            filters := { name := "" } }
        axios :=
          { authorization := some "Bearer tok2"
            sent :=
              [{ method := "GET", url := "/users/current", authorization := some "Bearer tok1",
                 data := none },
               { method := "POST", url := "/users/logout", authorization := some "Bearer tok1",
                 data := none },
               { method := "POST", url := "/users/login", authorization := some "",
                 data := some [("email", "a@b.com"), ("password", "secret1")] }] } }
    inFlight := [] }

/-- Guard: no fetch, add or delete completes with a failure. -/
def noFailedCall (_s : Repo) : ContactEvent → Bool
  | .fetchContactsSettle (.error _) => false
  | .addContactSettle (.error _) => false
  | .deleteContactSettle (.error _) => false
  | _ => true

/-- An example of what happens between the start and the completion of a fetch: an add is
started and succeeds. -/
def addDuringFetch : List ContactEvent :=
  [.addContactIssue [("name", "Ann"), ("number", "556")], .addContactSettle (.ok ann)]

/-- The repository after a fetch started at process start, `addDuringFetch` in between,
and the fetch answered with John Doe and Ann. -/
def addDuringFetchEnd : Repo :=
  { world :=
      { store :=
          { auth := initialState
            contacts := { items := [johnDoe, ann], loading := false, error := none }
            filters := { name := "" } }
        axios :=
          { authorization := none
            sent :=
              [{ method := "GET", url := "/contacts", authorization := none, data := none },
               { method := "POST", url := "/contacts", authorization := none,
                 data := some [("name", "Ann"), ("number", "556")] }] } }
    inFlight := [] }

/-! # Theorems -/

/-! ## Logout -/

/-- Whatever the answer, completing `logOut` leaves the auth slice cleared; only
`isRefreshing` keeps its value. -/
theorem logOutSettle_auth (response : Except String Unit) (w : World) :
    (logOutSettle response w).1.store.auth =
      { user := { name := none, email := none }, token := none, isLoggedIn := false,
        isRefreshing := w.store.auth.isRefreshing } := by
  cases response <;> rfl

/-- C1: logout clears the local session whether the remote call succeeds or fails. For
every session state, after `logOut.fulfilled` and after `logOut.rejected` (any error
message) the auth state has `user` with name and email `null`, `token = null` and
`isLoggedIn = false`; and so has the store after the whole `logOut` operation, whatever
the remote service answers. -/
theorem logOut_clears_session :
    (∀ state : AuthState,
      (authReducer state .logOutFulfilled).user = { name := none, email := none } ∧
      (authReducer state .logOutFulfilled).token = none ∧
      (authReducer state .logOutFulfilled).isLoggedIn = false) ∧
    (∀ (state : AuthState) (message : String),
      (authReducer state (.logOutRejected message)).user = { name := none, email := none } ∧
      (authReducer state (.logOutRejected message)).token = none ∧
      (authReducer state (.logOutRejected message)).isLoggedIn = false) ∧
    (∀ (server : Server) (w : World),
      (logOut server w).1.store.auth.user = { name := none, email := none } ∧
      (logOut server w).1.store.auth.token = none ∧
      (logOut server w).1.store.auth.isLoggedIn = false) := by
  refine ⟨fun state => ⟨rfl, rfl, rfl⟩, fun state message => ⟨rfl, rfl, rfl⟩, ?_⟩
  intro server w
  have h := logOutSettle_auth (server.logout (logOutIssue w).2) (logOutIssue w).1
  exact ⟨congrArg AuthState.user h, congrArg AuthState.token h, congrArg AuthState.isLoggedIn h⟩

/-- C2: the contacts slice clears the list on `logOut.fulfilled` but has no case for
`logOut.rejected`: on a failed logout the contact list state is returned as it is. With
one contact in the list and a remote logout that fails with a transport error, the
`logOut` operation clears the session and leaves the contact in `items`. -/
theorem logOut_rejected_keeps_contacts :
    (∀ state : ContactsState,
      contactsReducer state .logOutFulfilled = { items := [], loading := false, error := none }) ∧
    (∀ (state : ContactsState) (message : String),
      contactsReducer state (.logOutRejected message) = state) ∧
    (logOut
        { signup := fun _ => .error "Network Error", login := fun _ => .error "Network Error",
          logout := fun _ => .error "Network Error", current := fun _ => .error "Network Error" }
        { store :=
            { auth :=
                { user := { name := some "A", email := some "a@b.com" }, token := some "tok1",
                  isLoggedIn := true, isRefreshing := false }
              contacts :=
                { items := [{ id := "1", name := "John Doe", number := "555" }], loading := false,
                  error := none }
              filters := { name := "" } }
          axios := { authorization := some "Bearer tok1", sent := [] } }).1.store =
      { auth := initialState
        contacts :=
          { items := [{ id := "1", name := "John Doe", number := "555" }], loading := false,
            error := none }
        filters := { name := "" } } := by
  refine ⟨fun state => rfl, fun state message => rfl, ?_⟩
  decide

/-! ## Refresh -/

/-- C3: for every token `T`, refresh run from the startup state with persisted token `T`
sends `GET /users/current` with the header "Bearer T"; when the service accepts it with
user `data` the session ends with `isLoggedIn = true`, `isRefreshing = false` and
`user = data`, and when the service rejects it the session ends with
`isLoggedIn = false` and `isRefreshing = false`. -/
theorem refreshUser_at_startup (T : String) (server : Server) (ax : Axios) :
    (refreshUserIssue { store := startup (some T), axios := ax }).2 =
      some { method := "GET", url := "/users/current", authorization := some ("Bearer " ++ T),
             data := none } ∧
    (refreshUserIssue { store := startup (some T), axios := ax }).1.store.auth.isRefreshing = true ∧
    match server.current
        { method := "GET", url := "/users/current", authorization := some ("Bearer " ++ T),
          data := none } with
    | .ok data =>
        (refreshUser server { store := startup (some T), axios := ax }).1.store.auth.isLoggedIn = true ∧
        (refreshUser server { store := startup (some T), axios := ax }).1.store.auth.isRefreshing = false ∧
        (refreshUser server { store := startup (some T), axios := ax }).1.store.auth.user = data
    | .error _ =>
        (refreshUser server { store := startup (some T), axios := ax }).1.store.auth.isLoggedIn = false ∧
        (refreshUser server { store := startup (some T), axios := ax }).1.store.auth.isRefreshing = false := by
  refine ⟨rfl, rfl, ?_⟩
  have h : refreshUser server { store := startup (some T), axios := ax } =
      refreshUserSettle
        (some (server.current
          { method := "GET", url := "/users/current", authorization := some ("Bearer " ++ T),
            data := none }))
        (refreshUserIssue { store := startup (some T), axios := ax }).1 := rfl
  rw [h]
  cases server.current
      { method := "GET", url := "/users/current", authorization := some ("Bearer " ++ T),
        data := none } with
  | ok data => exact ⟨rfl, rfl, rfl⟩
  | error message => exact ⟨rfl, rfl⟩

/-- C4: `refreshUser.rejected` resets `isRefreshing` and nothing else: `isLoggedIn` keeps
the value it had. From a state with `isLoggedIn = true` the failed refresh leaves
`isLoggedIn = true`; such a state is met when two refreshes overlap, the first is
accepted and the second fails. -/
theorem refreshUser_rejected_keeps_isLoggedIn :
    (∀ (state : AuthState) (message : String),
      (authReducer state (.refreshUserRejected message)).isRefreshing = false ∧
      (authReducer state (.refreshUserRejected message)).isLoggedIn = state.isLoggedIn) ∧
    authReducer
        { user := { name := some "A", email := some "a@b.com" }, token := some "tok1",
          isLoggedIn := true, isRefreshing := false }
        (.refreshUserRejected "Network Error") =
      { user := { name := some "A", email := some "a@b.com" }, token := some "tok1",
        isLoggedIn := true, isRefreshing := false } ∧
    (Session.run sessionGuard (Session.startup (some "tok1"))
        [.refreshUserIssue, .refreshUserIssue,
          .refreshUserSettle (some (.ok { name := some "A", email := some "a@b.com" }))]).map
        (fun s => (s.world.store.auth, s.inFlight)) =
      some ({ user := { name := some "A", email := some "a@b.com" }, token := some "tok1",
              isLoggedIn := true, isRefreshing := false }, [.refreshUser true]) ∧
    (Session.run sessionGuard (Session.startup (some "tok1"))
        [.refreshUserIssue, .refreshUserIssue,
          .refreshUserSettle (some (.ok { name := some "A", email := some "a@b.com" })),
          .refreshUserSettle (some (.error "Network Error"))]).map
        (fun s => (s.world.store.auth, s.inFlight)) =
      some ({ user := { name := some "A", email := some "a@b.com" }, token := some "tok1",
              isLoggedIn := true, isRefreshing := false }, []) := by
  refine ⟨fun state message => ⟨rfl, rfl⟩, rfl, ?_, ?_⟩ <;> decide

theorem Session.settle_eq_some {s s1 : Session} {ticket : Ticket} {w : World}
    (h : s.settle ticket w = some s1) :
    ticket ∈ s.inFlight ∧ s1 = { world := w, inFlight := s.inFlight.erase ticket } := by
  unfold Session.settle at h
  split at h
  · rename_i hmem
    cases h
    exact ⟨hmem, rfl⟩
  · cases h

/-- Starting a refresh sets `isRefreshing` in the auth slice and changes nothing else
of it. -/
theorem refreshUserIssue_auth (w : World) :
    (refreshUserIssue w).1.store.auth = { w.store.auth with isRefreshing := true } := by
  unfold refreshUserIssue
  cases h : w.store.auth.token <;>
    simp [World.dispatch, World.request, rootReducer, authReducer, h]

/-- Starting a refresh sends a request exactly when the token in the state is not `null`. -/
theorem refreshUserIssue_requested (w : World) :
    (refreshUserIssue w).2.isSome = w.store.auth.token.isSome := by
  unfold refreshUserIssue
  cases h : w.store.auth.token <;>
    simp [World.dispatch, World.request, rootReducer, authReducer, h]

/-- Every guarded step keeps `TokenInv`. -/
theorem TokenInv.step {s s1 : Session} {e : Event} (hinv : TokenInv s)
    (hg : orderedGuard s e = true) (hs : s.step e = some s1) : TokenInv s1 := by
  obtain ⟨hlog, hreq⟩ := hinv
  cases e with
  | registerIssue credentials =>
      cases hs
      exact ⟨hlog, fun h => hreq (by simpa using h)⟩
  | logInIssue credentials =>
      cases hs
      exact ⟨hlog, fun h => hreq (by simpa using h)⟩
  | logOutIssue =>
      cases hs
      exact ⟨hlog, fun h => hreq (by simpa using h)⟩
  | registerSettle response =>
      obtain ⟨-, rfl⟩ := Session.settle_eq_some hs
      cases response with
      | error message => exact ⟨hlog, fun h => hreq (List.mem_of_mem_erase h)⟩
      | ok data =>
          have ht : data.token ≠ none := by
            intro h0
            simp [orderedGuard, sessionGuard, answerCarriesToken, h0] at hg
          exact ⟨fun _ => ht, fun _ => ht⟩
  | logInSettle response =>
      obtain ⟨-, rfl⟩ := Session.settle_eq_some hs
      cases response with
      | error message => exact ⟨hlog, fun h => hreq (List.mem_of_mem_erase h)⟩
      | ok data =>
          have ht : data.token ≠ none := by
            intro h0
            simp [orderedGuard, sessionGuard, answerCarriesToken, h0] at hg
          exact ⟨fun _ => ht, fun _ => ht⟩
  | logOutSettle response =>
      obtain ⟨-, rfl⟩ := Session.settle_eq_some hs
      have hno : Ticket.refreshUser true ∉ s.inFlight := by
        simpa [orderedGuard, sessionGuard, answerCarriesToken, refreshReadsToken,
          logOutClearOfRefresh] using hg
      refine ⟨?_, fun h => absurd (List.mem_of_mem_erase h) hno⟩
      show (logOutSettle response s.world).1.store.auth.isLoggedIn = true → _
      rw [logOutSettle_auth]
      intro h
      cases h
  | refreshUserIssue =>
      cases hs
      refine ⟨?_, ?_⟩
      · show (refreshUserIssue s.world).1.store.auth.isLoggedIn = true →
          (refreshUserIssue s.world).1.store.auth.token ≠ none
        rw [refreshUserIssue_auth]
        exact hlog
      · show Ticket.refreshUser true ∈
            Ticket.refreshUser (refreshUserIssue s.world).2.isSome :: s.inFlight →
          (refreshUserIssue s.world).1.store.auth.token ≠ none
        rw [refreshUserIssue_auth, refreshUserIssue_requested]
        intro h
        cases htok : s.world.store.auth.token with
        | some persistedToken => simp [htok]
        | none =>
            rw [htok] at h
            have h2 : Ticket.refreshUser true ∈ s.inFlight := by simpa using h
            exact absurd htok (hreq h2)
  | refreshUserSettle response =>
      obtain ⟨hmem, rfl⟩ := Session.settle_eq_some hs
      cases response with
      | none => exact ⟨hlog, fun h => hreq (List.mem_of_mem_erase h)⟩
      | some answer =>
          cases answer with
          | error message => exact ⟨hlog, fun h => hreq (List.mem_of_mem_erase h)⟩
          | ok data => exact ⟨fun _ => hreq hmem, fun _ => hreq hmem⟩

/-- Every guarded run keeps `TokenInv`. -/
theorem TokenInv.run {es : List Event} : ∀ {s s1 : Session}, TokenInv s →
    Session.run orderedGuard s es = some s1 → TokenInv s1 := by
  induction es with
  | nil =>
      intro s s1 hinv h
      cases h
      exact hinv
  | cons e es ih =>
      intro s s1 hinv h
      unfold Session.run at h
      split at h
      · rename_i hg
        split at h
        · rename_i s2 hs
          exact ih (TokenInv.step hinv hg hs) h
        · cases h
      · cases h

/-- C5 (as stated, refuted): a run of register, login, logout and refresh events from the
initial state, with refresh started while the token is set and the login answer
carrying a token, that ends with `isLoggedIn = true` and `token = null`: the user logs
in, a refresh is started, a logout completes while the refresh request is outstanding,
then the refresh is accepted. -/
theorem token_invariant_counterexample :
    (Session.run sessionGuard (Session.startup none)
        [.logInIssue [("email", "a@b.com"), ("password", "secret1")],
          .logInSettle (.ok { user := { name := some "A", email := none }, token := some "tok1" }),
          .refreshUserIssue,
          .logOutIssue,
          .logOutSettle (.ok ()),
          .refreshUserSettle (some (.ok { name := some "A", email := some "a@b.com" }))]).map
        (fun s => (s.world.store.auth.isLoggedIn, s.world.store.auth.token, s.inFlight)) =
      some (true, none, []) := by
  decide

/-- C5 (amended): in every session state reachable from the startup state (any persisted
token, `none` being the initial state) by an interleaving of register, login, logout
and refresh events in which refresh is started only with a token, successful login and
signup answers carry a token, and no logout completes while a refresh request is
outstanding, `isLoggedIn = true` implies `token ≠ null`. -/
theorem token_invariant_ordered (persistedToken : Option String) (es : List Event) (s : Session)
    (hrun : Session.run orderedGuard (Session.startup persistedToken) es = some s)
    (hlog : s.world.store.auth.isLoggedIn = true) :
    s.world.store.auth.token ≠ none := by
  have h0 : TokenInv (Session.startup persistedToken) :=
    ⟨fun h => Bool.noConfusion h, fun h => by cases h⟩
  exact (TokenInv.run h0 hrun).1 hlog

/-- C5 (amended), at a concrete input: a login followed by an accepted refresh. -/
theorem token_invariant_ordered_witness :
    Session.run orderedGuard (Session.startup none) loginThenRefresh = some loginThenRefreshEnd ∧
    loginThenRefreshEnd.world.store.auth.isLoggedIn = true ∧
    loginThenRefreshEnd.world.store.auth.token ≠ none :=
  ⟨by decide, by decide,
    token_invariant_ordered none loginThenRefresh loginThenRefreshEnd (by decide) (by decide)⟩

/-! ## Login and registration -/

/-- C6: for every session state and every successful login or registration answer
`{user, token}`, the resulting session has `user` and `token` of the answer and
`isLoggedIn = true`, at the reducer (`register.fulfilled`, `logIn.fulfilled`) and after
the completion of the operation; a login answered with user A and token "tok1" gives
`isLoggedIn = true`, user A, token "tok1". -/
theorem login_register_fulfilled :
    (∀ (state : AuthState) (payload : AuthPayload),
      (authReducer state (.registerFulfilled payload)).user = payload.user ∧
      (authReducer state (.registerFulfilled payload)).token = payload.token ∧
      (authReducer state (.registerFulfilled payload)).isLoggedIn = true ∧
      (authReducer state (.logInFulfilled payload)).user = payload.user ∧
      (authReducer state (.logInFulfilled payload)).token = payload.token ∧
      (authReducer state (.logInFulfilled payload)).isLoggedIn = true) ∧
    (∀ (w : World) (data : AuthPayload),
      (registerSettle (.ok data) w).2 = .registerFulfilled data ∧
      (registerSettle (.ok data) w).1.store.auth.user = data.user ∧
      (registerSettle (.ok data) w).1.store.auth.token = data.token ∧
      (registerSettle (.ok data) w).1.store.auth.isLoggedIn = true ∧
      (logInSettle (.ok data) w).2 = .logInFulfilled data ∧
      (logInSettle (.ok data) w).1.store.auth.user = data.user ∧
      (logInSettle (.ok data) w).1.store.auth.token = data.token ∧
      (logInSettle (.ok data) w).1.store.auth.isLoggedIn = true) ∧
    (logIn
        { signup := fun _ => .error "Network Error",
          login := fun _ => .ok { user := { name := some "A", email := none }, token := some "tok1" },
          logout := fun _ => .error "Network Error", current := fun _ => .error "Network Error" }
        [("email", "a@b.com"), ("password", "secret1")]
        (World.startup none)).1.store.auth =
      { user := { name := some "A", email := none }, token := some "tok1", isLoggedIn := true,
        isRefreshing := false } := by
  refine ⟨fun state payload => ⟨rfl, rfl, rfl, rfl, rfl, rfl⟩,
    fun w data => ⟨rfl, rfl, rfl, rfl, rfl, rfl, rfl, rfl⟩, ?_⟩
  decide

/-- C7: a failed login or registration leaves the session unchanged. For every state
the `pending` and `rejected` actions of `register` and `logIn` return the state they
were given; and an operation whose call fails (any error message) leaves the whole
store and the Authorization header as they were before it started, and resolves to the
`rejected` action carrying the message. -/
theorem login_register_failure_unchanged :
    (∀ (state : AuthState) (message : String),
      authReducer state .registerPending = state ∧
      authReducer state (.registerRejected message) = state ∧
      authReducer state .logInPending = state ∧
      authReducer state (.logInRejected message) = state) ∧
    (∀ (w : World) (credentials : List (String × String)) (message : String),
      (registerSettle (.error message) (registerIssue credentials w).1).1.store = w.store ∧
      (registerSettle (.error message) (registerIssue credentials w).1).1.axios.authorization =
        w.axios.authorization ∧
      (registerSettle (.error message) (registerIssue credentials w).1).2 =
        .registerRejected message ∧
      (logInSettle (.error message) (logInIssue credentials w).1).1.store = w.store ∧
      (logInSettle (.error message) (logInIssue credentials w).1).1.axios.authorization =
        w.axios.authorization ∧
      (logInSettle (.error message) (logInIssue credentials w).1).2 = .logInRejected message) := by
  refine ⟨fun state message => ⟨rfl, rfl, rfl, rfl⟩, fun w credentials message => ?_⟩
  exact ⟨rfl, rfl, rfl, rfl, rfl, rfl⟩

/-! ## Refresh without a persisted token -/

/-- With no token in the state, starting a refresh dispatches `pending` and does nothing
else: no header change, no request. -/
theorem refreshUserIssue_without_token (w : World) (htok : w.store.auth.token = none) :
    refreshUserIssue w = (w.dispatch .refreshUserPending, none) := by
  unfold refreshUserIssue
  have h : (w.dispatch Action.refreshUserPending).store.auth.token = none := htok
  simp only [h]

/-- C8: when the persisted token is absent (`state.auth.token = null`, session not
logged in, as at startup with an empty token store), refresh makes no request and does
not touch the Authorization header, resolves to the `rejected` action with value
"Unable to fetch user", and the session ends with `isLoggedIn = false` and
`isRefreshing = false`. -/
theorem refreshUser_without_token (server : Server) (w : World)
    (htok : w.store.auth.token = none) (hlog : w.store.auth.isLoggedIn = false) :
    (refreshUserIssue w).2 = none ∧
    (refreshUser server w).1.axios = w.axios ∧
    (refreshUser server w).2 = .refreshUserRejected "Unable to fetch user" ∧
    (refreshUser server w).1.store.auth.isLoggedIn = false ∧
    (refreshUser server w).1.store.auth.isRefreshing = false := by
  unfold refreshUser
  rw [refreshUserIssue_without_token w htok]
  exact ⟨rfl, rfl, rfl, hlog, rfl⟩

/-- C8, at a concrete input: startup with an empty token store, against a service that
would accept any request. -/
theorem refreshUser_without_token_witness :
    (World.startup none).store.auth.token = none ∧
    (World.startup none).store.auth.isLoggedIn = false ∧
    (refreshUserIssue (World.startup none)).2 = none ∧
    (refreshUser acceptingServer (World.startup none)).1.axios = (World.startup none).axios ∧
    (refreshUser acceptingServer (World.startup none)).2 =
      .refreshUserRejected "Unable to fetch user" ∧
    (refreshUser acceptingServer (World.startup none)).1.store.auth.isLoggedIn = false ∧
    (refreshUser acceptingServer (World.startup none)).1.store.auth.isRefreshing = false :=
  ⟨rfl, rfl, refreshUser_without_token acceptingServer (World.startup none) rfl rfl⟩

/-- C9 (as stated, refuted): a refresh started at startup with no persisted token makes
no request, and the state it reaches on `refreshUser.pending` has `isRefreshing = true`. -/
theorem refresh_without_token_counterexample :
    (refreshUserIssue (World.startup none)).2 = none ∧
    (refreshUserIssue (World.startup none)).1.store.auth.isRefreshing = true ∧
    (Session.run (fun _ _ => true) (Session.startup none) [.refreshUserIssue]).map
        (fun s => (s.world.store.auth.token, s.world.store.auth.isRefreshing, s.inFlight)) =
      some (none, true, [.refreshUser false]) := by
  decide

/-- C9 (amended): a refresh started with `token = null` makes no request and leaves the
Authorization header alone; it reaches two states: on `refreshUser.pending` the auth
state it started from with `isRefreshing = true`, and on the `refreshUser.rejected`
that follows the auth state it started from with `isRefreshing = false`. -/
theorem refresh_without_token_states (w : World) (htok : w.store.auth.token = none) :
    (refreshUserIssue w).2 = none ∧
    (refreshUserIssue w).1.axios = w.axios ∧
    (refreshUserIssue w).1.store.auth = { w.store.auth with isRefreshing := true } ∧
    (refreshUserSettle none (refreshUserIssue w).1).1.axios = w.axios ∧
    (refreshUserSettle none (refreshUserIssue w).1).1.store.auth =
      { w.store.auth with isRefreshing := false } := by
  rw [refreshUserIssue_without_token w htok]
  exact ⟨rfl, rfl, rfl, rfl, rfl⟩

/-- C9 (amended), at a concrete input: startup with an empty token store passes through
`isRefreshing = true` and ends in the initial auth state. -/
theorem refresh_without_token_states_witness :
    (World.startup none).store.auth.token = none ∧
    (refreshUserIssue (World.startup none)).2 = none ∧
    (refreshUserIssue (World.startup none)).1.axios = (World.startup none).axios ∧
    (refreshUserIssue (World.startup none)).1.store.auth =
      { (World.startup none).store.auth with isRefreshing := true } ∧
    (refreshUserSettle none (refreshUserIssue (World.startup none)).1).1.axios =
      (World.startup none).axios ∧
    (refreshUserSettle none (refreshUserIssue (World.startup none)).1).1.store.auth =
      { (World.startup none).store.auth with isRefreshing := false } :=
  ⟨rfl, refresh_without_token_states (World.startup none) rfl⟩

/-! ## The bearer credential on failure -/

/-- C10: the Authorization header is cleared by a logout the service accepts, and by
nothing else. A logout whose call fails leaves the header as it was, and a refresh the
service rejects leaves it at "Bearer T": with token "tok1", after the failed logout and
after the failed refresh the header is "Bearer tok1", and the next request carries it. -/
theorem failure_keeps_bearer_credential :
    (∀ w : World, (logOutSettle (.ok ()) (logOutIssue w).1).1.axios.authorization = some "") ∧
    (∀ (w : World) (message : String),
      (logOutSettle (.error message) (logOutIssue w).1).1.axios.authorization =
        w.axios.authorization) ∧
    (∀ (T : String) (ax : Axios) (message : String),
      (refreshUserSettle (some (.error message))
        (refreshUserIssue { store := startup (some T), axios := ax }).1).1.axios.authorization =
        some ("Bearer " ++ T)) ∧
    (logOut
        { signup := fun _ => .error "Network Error", login := fun _ => .error "Network Error",
          logout := fun _ => .error "Network Error", current := fun _ => .error "Network Error" }
        { store :=
            { auth :=
                { user := { name := some "A", email := some "a@b.com" }, token := some "tok1",
                  isLoggedIn := true, isRefreshing := false }
              contacts := contactsInitialState
              filters := filtersInitialState }
          axios := { authorization := some "Bearer tok1", sent := [] } }).1.axios.authorization =
      some "Bearer tok1" ∧
    (refreshUser
        { signup := fun _ => .error "Network Error", login := fun _ => .error "Network Error",
          logout := fun _ => .error "Network Error",
          current := fun _ => .error "Request failed with status code 401" }
        (World.startup (some "tok1"))).1.axios.authorization = some "Bearer tok1" ∧
    (logInIssue [("email", "c@d.com"), ("password", "secret2")]
        (refreshUser
          { signup := fun _ => .error "Network Error", login := fun _ => .error "Network Error",
            logout := fun _ => .error "Network Error",
            current := fun _ => .error "Request failed with status code 401" }
          (World.startup (some "tok1"))).1).2.authorization = some "Bearer tok1" := by
  refine ⟨fun w => rfl, fun w message => rfl, fun T ax message => rfl, ?_, ?_, ?_⟩ <;> decide

/-! ## The bearer credential on success -/

/-- C11: after a successful register or login the Authorization header is "Bearer "
followed by the token of the answer, and that token is `state.auth.token`; after a
successful refresh, started in any world whose token is `T`, the request was sent, the
header is "Bearer " followed by `T`, and `state.auth.token` is still `T`. Each operation
is taken on its own, from its start to its `fulfilled` action. -/
theorem bearer_header_after_success :
    (∀ (w : World) (credentials : List (String × String)) (user : User) (t : String),
      (registerSettle (.ok { user := user, token := some t })
          (registerIssue credentials w).1).1.axios.authorization = some ("Bearer " ++ t) ∧
      (registerSettle (.ok { user := user, token := some t })
          (registerIssue credentials w).1).1.store.auth.token = some t ∧
      (logInSettle (.ok { user := user, token := some t })
          (logInIssue credentials w).1).1.axios.authorization = some ("Bearer " ++ t) ∧
      (logInSettle (.ok { user := user, token := some t })
          (logInIssue credentials w).1).1.store.auth.token = some t) ∧
    (∀ (auth : AuthState) (contacts : ContactsState) (filters : FiltersState) (ax : Axios)
        (T : String) (data : User),
      (refreshUserIssue
        { store := { auth := { auth with token := some T }, contacts := contacts, filters := filters },
          axios := ax }).2 =
        some { method := "GET", url := "/users/current", authorization := some ("Bearer " ++ T),
               data := none } ∧
      (refreshUserSettle (some (.ok data))
        (refreshUserIssue
          { store := { auth := { auth with token := some T }, contacts := contacts, filters := filters },
            axios := ax }).1).1.axios.authorization = some ("Bearer " ++ T) ∧
      (refreshUserSettle (some (.ok data))
        (refreshUserIssue
          { store := { auth := { auth with token := some T }, contacts := contacts, filters := filters },
            axios := ax }).1).1.store.auth.token = some T) :=
  ⟨fun _ _ _ _ => ⟨rfl, rfl, rfl, rfl⟩, fun _ _ _ _ _ _ => ⟨rfl, rfl, rfl⟩⟩

/-- C12 (as stated, refuted): with no Authorization header set (process start, nobody
logged in) `fetchContacts`, `addContact`, `deleteContact` and `logOut` each send their
request, with no credential on it; against a service that answers, `fetchContacts`
resolves to `fulfilled`. -/
theorem no_fail_fast_counterexample :
    (fetchContactsIssue (World.startup none)).2 =
      { method := "GET", url := "/contacts", authorization := none, data := none } ∧
    (addContactIssue [("name", "John Doe"), ("number", "555")] (World.startup none)).2 =
      { method := "POST", url := "/contacts", authorization := none,
        data := some [("name", "John Doe"), ("number", "555")] } ∧
    (deleteContactIssue "1" (World.startup none)).2 =
      { method := "DELETE", url := "/contacts/1", authorization := none, data := none } ∧
    (logOutIssue (World.startup none)).2 =
      { method := "POST", url := "/users/logout", authorization := none, data := none } ∧
    (fetchContactsIssue (World.startup none)).1.axios.sent =
      [{ method := "GET", url := "/contacts", authorization := none, data := none }] ∧
    (fetchContacts
        { list := fun _ => .ok [{ id := "1", name := "John Doe", number := "555" }],
          create := fun _ => .error "Network Error", remove := fun _ => .error "Network Error" }
        (World.startup none)).2 =
      .fetchContactsFulfilled [{ id := "1", name := "John Doe", number := "555" }] := by
  decide

/-- C12 (amended): an authenticated operation sends its request whatever the
Authorization header is, set or not: exactly one request is added to those sent, it
carries the header as it is at that moment, and the operation resolves by the answer
alone, `fulfilled` for a successful answer and `rejected` with the message for a
failure. -/
theorem authenticated_call_always_sent (w : World) :
    ((fetchContactsIssue w).1.axios.sent = w.axios.sent ++ [(fetchContactsIssue w).2] ∧
      (fetchContactsIssue w).2.authorization = w.axios.authorization) ∧
    (∀ newContact : List (String × String),
      (addContactIssue newContact w).1.axios.sent =
        w.axios.sent ++ [(addContactIssue newContact w).2] ∧
      (addContactIssue newContact w).2.authorization = w.axios.authorization) ∧
    (∀ contactId : String,
      (deleteContactIssue contactId w).1.axios.sent =
        w.axios.sent ++ [(deleteContactIssue contactId w).2] ∧
      (deleteContactIssue contactId w).2.authorization = w.axios.authorization) ∧
    ((logOutIssue w).1.axios.sent = w.axios.sent ++ [(logOutIssue w).2] ∧
      (logOutIssue w).2.authorization = w.axios.authorization) ∧
    (∀ data : List Contact,
      (fetchContactsSettle (.ok data) w).2 = .fetchContactsFulfilled data) ∧
    (∀ data : Contact, (addContactSettle (.ok data) w).2 = .addContactFulfilled data ∧
      (deleteContactSettle (.ok data) w).2 = .deleteContactFulfilled data) ∧
    (logOutSettle (.ok ()) w).2 = .logOutFulfilled ∧
    (∀ message : String,
      (fetchContactsSettle (.error message) w).2 = .fetchContactsRejected message ∧
      (addContactSettle (.error message) w).2 = .addContactRejected message ∧
      (deleteContactSettle (.error message) w).2 = .deleteContactRejected message ∧
      (logOutSettle (.error message) w).2 = .logOutRejected message) :=
  ⟨⟨rfl, rfl⟩, fun _ => ⟨rfl, rfl⟩, fun _ => ⟨rfl, rfl⟩, ⟨rfl, rfl⟩, fun _ => rfl,
    fun _ => ⟨rfl, rfl⟩, rfl, fun _ => ⟨rfl, rfl, rfl, rfl⟩⟩

/-! ## Fetch, add and delete, one call at a time -/

/-- A fetch with nothing in between: for every contact list state and every server list
`L`, `fetchContacts.pending` directly followed by `fetchContacts.fulfilled` with payload
`L` leaves `items = L`, `error = null` and `loading = false`. -/
theorem fetchContacts_success (L : List Contact) :
    (∀ state : ContactsState,
      contactsReducer (contactsReducer state .fetchContactsPending) (.fetchContactsFulfilled L) =
        { items := L, loading := false, error := none }) ∧
    (∀ w : World,
      (fetchContactsSettle (.ok L) (fetchContactsIssue w).1).1.store.contacts =
        { items := L, loading := false, error := none } ∧
      (fetchContactsIssue w).1.store.contacts.loading = true) :=
  ⟨fun _ => rfl, fun _ => ⟨rfl, rfl⟩⟩

/-- C14: for every contact list state and failure message, a failing fetch, add or
delete (`pending` followed by `rejected` with the message) leaves `items` as it was,
sets `error` to the message and `loading` to `false`, at the reducer and for the whole
operation; a fetch failing with a transport error while `items` holds two contacts
leaves those two contacts. -/
theorem contact_call_failure (message : String) :
    (∀ state : ContactsState,
      contactsReducer (contactsReducer state .fetchContactsPending) (.fetchContactsRejected message) =
        { items := state.items, loading := false, error := some message } ∧
      contactsReducer (contactsReducer state .addContactPending) (.addContactRejected message) =
        { items := state.items, loading := false, error := some message } ∧
      contactsReducer (contactsReducer state .deleteContactPending)
          (.deleteContactRejected message) =
        { items := state.items, loading := false, error := some message }) ∧
    (∀ (w : World) (newContact : List (String × String)) (contactId : String),
      (fetchContactsSettle (.error message) (fetchContactsIssue w).1).1.store.contacts =
        { items := w.store.contacts.items, loading := false, error := some message } ∧
      (addContactSettle (.error message) (addContactIssue newContact w).1).1.store.contacts =
        { items := w.store.contacts.items, loading := false, error := some message } ∧
      (deleteContactSettle (.error message) (deleteContactIssue contactId w).1).1.store.contacts =
        { items := w.store.contacts.items, loading := false, error := some message }) ∧
    (fetchContacts
        { list := fun _ => .error "Network Error", create := fun _ => .error "Network Error",
          remove := fun _ => .error "Network Error" }
        { store :=
            { auth := initialState
              contacts :=
                { items :=
                    [{ id := "1", name := "John Doe", number := "555" },
                     { id := "2", name := "Ann", number := "556" }]
                  loading := false, error := none }
              filters := filtersInitialState }
          axios := { authorization := some "Bearer tok1", sent := [] } }).1.store.contacts =
      { items :=
          [{ id := "1", name := "John Doe", number := "555" },
           { id := "2", name := "Ann", number := "556" }]
        loading := false, error := some "Network Error" } := by
  refine ⟨fun _ => ⟨rfl, rfl, rfl⟩, fun _ _ _ => ⟨rfl, rfl, rfl⟩, ?_⟩
  decide

/-- C15: for every contact list and every contact `c` the service returns, a successful
add yields the old items followed by `c`: the first `length` items are the old ones in
their positions, `c` is the last element, and the length grows by exactly one. -/
theorem addContact_appends (state : ContactsState) (c : Contact) :
    (contactsReducer state (.addContactFulfilled c)).items = state.items ++ [c] ∧
    (contactsReducer state (.addContactFulfilled c)).items.take state.items.length = state.items ∧
    (contactsReducer state (.addContactFulfilled c)).items.getLast? = some c ∧
    (contactsReducer state (.addContactFulfilled c)).items.length = state.items.length + 1 ∧
    (∀ w : World,
      (addContactSettle (.ok c) w).1.store.contacts.items = w.store.contacts.items ++ [c]) := by
  refine ⟨rfl, ?_, ?_, ?_, fun _ => rfl⟩
  · show (state.items ++ [c]).take state.items.length = state.items
    simp
  · show (state.items ++ [c]).getLast? = some c
    simp
  · show (state.items ++ [c]).length = state.items.length + 1
    simp

/-- C16: for every contact list and every deleted contact the service returns, a
successful delete yields exactly the contacts whose id differs from the deleted id, in
their original relative order: the result is a sublist of the old items, a contact is in
it exactly when it was in the old items with a different id, so no contact with the
deleted id remains and no other contact is removed. -/
theorem deleteContact_removes_by_id (state : ContactsState) (deleted : Contact) :
    (contactsReducer state (.deleteContactFulfilled deleted)).items.Sublist state.items ∧
    (∀ c : Contact, c ∈ (contactsReducer state (.deleteContactFulfilled deleted)).items ↔
      c ∈ state.items ∧ c.id ≠ deleted.id) ∧
    (∀ w : World,
      (deleteContactSettle (.ok deleted) w).1.store.contacts.items =
        (contactsReducer w.store.contacts (.deleteContactFulfilled deleted)).items) := by
  have hitems : (contactsReducer state (.deleteContactFulfilled deleted)).items =
      state.items.filter (fun item => item.id != deleted.id) := rfl
  refine ⟨?_, ?_, fun _ => rfl⟩
  · rw [hitems]
    exact List.filter_sublist _
  · intro c
    rw [hitems]
    simp [List.mem_filter]

/-! ## The loading flag under overlapping calls -/

theorem Repo.settle_some {s s1 : Repo} {ticket : ContactTicket} {w : World}
    (h : s.settle ticket w = some s1) :
    ticket ∈ s.inFlight ∧ s1 = { world := w, inFlight := s.inFlight.erase ticket } := by
  unfold Repo.settle at h
  split at h
  · rename_i hmem
    cases h
    exact ⟨hmem, rfl⟩
  · cases h

/-- A property kept by every guarded step is kept by every guarded run. -/
theorem Repo.run_invariant {guard : Repo → ContactEvent → Bool} {P : Repo → Prop}
    (hstep : ∀ (s : Repo) (e : ContactEvent) (s1 : Repo),
      P s → guard s e = true → s.step e = some s1 → P s1) :
    ∀ (es : List ContactEvent) {s s1 : Repo}, P s → Repo.run guard s es = some s1 → P s1 := by
  intro es
  induction es with
  | nil =>
      intro s s1 hP h
      cases h
      exact hP
  | cons e es ih =>
      intro s s1 hP h
      unfold Repo.run at h
      split at h
      · rename_i hg
        split at h
        · rename_i s2 hs
          exact ih (hstep s e s2 hP hg hs) h
        · cases h
      · cases h

/-- The completion of a fetch, whatever the answer, resets `loading`. -/
theorem fetchContactsSettle_loading (response : Except String (List Contact)) (w : World) :
    (fetchContactsSettle response w).1.store.contacts.loading = false := by
  cases response <;> rfl

/-- The completion of an add, whatever the answer, resets `loading`. -/
theorem addContactSettle_loading (response : Except String Contact) (w : World) :
    (addContactSettle response w).1.store.contacts.loading = false := by
  cases response <;> rfl

/-- The completion of a delete, whatever the answer, resets `loading`. -/
theorem deleteContactSettle_loading (response : Except String Contact) (w : World) :
    (deleteContactSettle response w).1.store.contacts.loading = false := by
  cases response <;> rfl

/-- Steps of fetch, add and delete keep: `loading` is set only while a call is
outstanding. -/
theorem loading_step (s : Repo) (e : ContactEvent) (s1 : Repo)
    (_hinv : s.world.store.contacts.loading = true → s.inFlight ≠ [])
    (hg : contactCallsOnly s e = true) (hs : s.step e = some s1) :
    s1.world.store.contacts.loading = true → s1.inFlight ≠ [] := by
  cases e with
  | fetchContactsIssue =>
      cases hs
      exact fun _ => List.cons_ne_nil _ _
  | addContactIssue newContact =>
      cases hs
      exact fun _ => List.cons_ne_nil _ _
  | deleteContactIssue contactId =>
      cases hs
      exact fun _ => List.cons_ne_nil _ _
  | fetchContactsSettle response =>
      obtain ⟨-, rfl⟩ := Repo.settle_some hs
      intro h
      have h2 := fetchContactsSettle_loading response s.world
      exact absurd (h.symm.trans h2) (by decide)
  | addContactSettle response =>
      obtain ⟨-, rfl⟩ := Repo.settle_some hs
      intro h
      have h2 := addContactSettle_loading response s.world
      exact absurd (h.symm.trans h2) (by decide)
  | deleteContactSettle response =>
      obtain ⟨-, rfl⟩ := Repo.settle_some hs
      intro h
      have h2 := deleteContactSettle_loading response s.world
      exact absurd (h.symm.trans h2) (by decide)
  | logOutIssue => cases hg
  | logOutSettle response => cases hg

/-- Steps of fetch, add and delete started one at a time keep: at most one call is
outstanding, and while one is, `loading` is set. -/
theorem serial_step (s : Repo) (e : ContactEvent) (s1 : Repo)
    (hinv : s.inFlight.length ≤ 1 ∧ (s.inFlight ≠ [] → s.world.store.contacts.loading = true))
    (hg : oneCallAtATime s e = true) (hs : s.step e = some s1) :
    s1.inFlight.length ≤ 1 ∧ (s1.inFlight ≠ [] → s1.world.store.contacts.loading = true) := by
  obtain ⟨hlen, hload⟩ := hinv
  have herase : ∀ ticket : ContactTicket, ticket ∈ s.inFlight → s.inFlight.erase ticket = [] := by
    intro ticket hmem
    have h1 : (s.inFlight.erase ticket).length = s.inFlight.length - 1 :=
      List.length_erase_of_mem hmem
    have h2 : (s.inFlight.erase ticket).length = 0 := by omega
    exact List.length_eq_zero.mp h2
  cases e with
  | fetchContactsIssue =>
      cases hs
      have hnil : s.inFlight = [] := by simpa [oneCallAtATime] using hg
      exact ⟨by simp [hnil], fun _ => rfl⟩
  | addContactIssue newContact =>
      cases hs
      have hnil : s.inFlight = [] := by simpa [oneCallAtATime] using hg
      exact ⟨by simp [hnil], fun _ => rfl⟩
  | deleteContactIssue contactId =>
      cases hs
      have hnil : s.inFlight = [] := by simpa [oneCallAtATime] using hg
      exact ⟨by simp [hnil], fun _ => rfl⟩
  | fetchContactsSettle response =>
      obtain ⟨hmem, rfl⟩ := Repo.settle_some hs
      exact ⟨by simp [herase _ hmem], fun h => absurd (herase _ hmem) h⟩
  | addContactSettle response =>
      obtain ⟨hmem, rfl⟩ := Repo.settle_some hs
      exact ⟨by simp [herase _ hmem], fun h => absurd (herase _ hmem) h⟩
  | deleteContactSettle response =>
      obtain ⟨hmem, rfl⟩ := Repo.settle_some hs
      exact ⟨by simp [herase _ hmem], fun h => absurd (herase _ hmem) h⟩
  | logOutIssue => cases hg
  | logOutSettle response => cases hg

/-- C17: `loading` is one flag that the completion of any fetch, add or delete resets,
whatever else is outstanding. With a fetch and a delete both started (`loading = true`,
two calls in flight), the answer to the fetch sets `loading = false` while the delete
is still outstanding. -/
theorem loading_reset_while_call_outstanding :
    (∀ (w : World) (fetched : Except String (List Contact)) (answer : Except String Contact),
      (fetchContactsSettle fetched w).1.store.contacts.loading = false ∧
      (addContactSettle answer w).1.store.contacts.loading = false ∧
      (deleteContactSettle answer w).1.store.contacts.loading = false) ∧
    (Repo.run contactCallsOnly Repo.startup
        [.fetchContactsIssue, .deleteContactIssue "1"]).map
        (fun s => (s.world.store.contacts.loading, s.inFlight)) =
      some (true, [.deleteContact, .fetchContacts]) ∧
    (Repo.run contactCallsOnly Repo.startup
        [.fetchContactsIssue, .deleteContactIssue "1",
          .fetchContactsSettle (.ok [johnDoe])]).map
        (fun s => (s.world.store.contacts.loading, s.inFlight)) =
      some (false, [.deleteContact]) := by
  refine ⟨fun w fetched answer => ⟨fetchContactsSettle_loading fetched w,
    addContactSettle_loading answer w, deleteContactSettle_loading answer w⟩, ?_, ?_⟩ <;> decide

/-- What the flag does track: in every contact list state reachable from process start by
any interleaving of fetch, add and delete operations, `loading = true` only when at
least one call is outstanding; and when the calls do not overlap (each is started while
none is outstanding), `loading = true` exactly when a call is outstanding. -/
theorem loading_only_while_outstanding (es : List ContactEvent) (s : Repo)
    (hrun : Repo.run contactCallsOnly Repo.startup es = some s) :
    (s.world.store.contacts.loading = true → s.inFlight ≠ []) ∧
    (Repo.run oneCallAtATime Repo.startup es = some s →
      (s.world.store.contacts.loading = true ↔ s.inFlight ≠ [])) := by
  have hA : s.world.store.contacts.loading = true → s.inFlight ≠ [] :=
    Repo.run_invariant loading_step es (fun h => Bool.noConfusion h) hrun
  refine ⟨hA, fun hserial => ⟨hA, ?_⟩⟩
  have h0 : Repo.startup.inFlight.length ≤ 1 ∧
      (Repo.startup.inFlight ≠ [] → Repo.startup.world.store.contacts.loading = true) :=
    ⟨by decide, fun h => absurd rfl h⟩
  exact (Repo.run_invariant serial_step es h0 hserial).2

/-- Calls one after the other, at a concrete input: a fetch that completed and an add that
is still outstanding; `loading` is set and the add is in flight. -/
theorem loading_only_while_outstanding_witness :
    Repo.run contactCallsOnly Repo.startup fetchThenAdd = some fetchThenAddEnd ∧
    Repo.run oneCallAtATime Repo.startup fetchThenAdd = some fetchThenAddEnd ∧
    fetchThenAddEnd.world.store.contacts.loading = true ∧
    fetchThenAddEnd.inFlight ≠ [] ∧
    (fetchThenAddEnd.world.store.contacts.loading = true ↔ fetchThenAddEnd.inFlight ≠ []) :=
  ⟨by decide, by decide, by decide, by decide,
    (loading_only_while_outstanding fetchThenAdd fetchThenAddEnd (by decide)).2 (by decide)⟩

/-! ## Successful adds and deletes in any completion order -/

theorem mem_addedContacts (c : Contact) :
    ∀ ms : List Mutation, c ∈ addedContacts ms ↔ Mutation.add c ∈ ms := by
  intro ms
  induction ms with
  | nil => simp [addedContacts]
  | cons m ms ih =>
      cases m with
      | add created => simp [addedContacts, ih]
      | delete deleted => simp [addedContacts, ih]

theorem mem_deletedIds (i : String) :
    ∀ ms : List Mutation, i ∈ deletedIds ms ↔ ∃ d : Contact, Mutation.delete d ∈ ms ∧ d.id = i := by
  intro ms
  induction ms with
  | nil => simp [deletedIds]
  | cons m ms ih =>
      cases m with
      | add created => simp [deletedIds, ih]
      | delete deleted =>
          simp only [deletedIds, List.mem_cons, ih, Mutation.delete.injEq]
          constructor
          · rintro (h | ⟨d, hd, hi⟩)
            · exact ⟨deleted, Or.inl rfl, h.symm⟩
            · exact ⟨d, Or.inr hd, hi⟩
          · rintro ⟨d, (hd | hd), hi⟩
            · exact Or.inl (by rw [← hi, hd])
            · exact Or.inr ⟨d, hd, hi⟩

/-- The items after the `fulfilled` actions of `ms`, when no delete of `ms` targets the
id of a contact an add of `ms` created. -/
theorem mem_applyFulfilled (c : Contact) :
    ∀ (ms : List Mutation) (state : ContactsState),
      (∀ a ∈ addedContacts ms, a.id ∉ deletedIds ms) →
      (c ∈ (applyFulfilled state ms).items ↔
        (c ∈ state.items ∨ c ∈ addedContacts ms) ∧ c.id ∉ deletedIds ms) := by
  intro ms
  induction ms with
  | nil =>
      intro state _
      simp [applyFulfilled, addedContacts, deletedIds]
  | cons m ms ih =>
      intro state hind
      cases m with
      | add created =>
          have hind2 : ∀ a ∈ addedContacts ms, a.id ∉ deletedIds ms := fun a ha =>
            hind a (List.mem_cons_of_mem _ ha)
          have hstep : applyFulfilled state (Mutation.add created :: ms) =
              applyFulfilled (contactsReducer state (.addContactFulfilled created)) ms := rfl
          have hitems : (contactsReducer state (.addContactFulfilled created)).items =
              state.items ++ [created] := rfl
          rw [hstep, ih _ hind2, hitems]
          simp only [addedContacts, deletedIds, List.mem_append, List.mem_singleton, List.mem_cons]
          tauto
      | delete deleted =>
          have hind2 : ∀ a ∈ addedContacts ms, a.id ∉ deletedIds ms := fun a ha hmem =>
            hind a ha (List.mem_cons_of_mem _ hmem)
          have hne : ∀ a ∈ addedContacts ms, a.id ≠ deleted.id := fun a ha heq =>
            hind a ha (by rw [heq]; exact List.mem_cons_self _ _)
          have hstep : applyFulfilled state (Mutation.delete deleted :: ms) =
              applyFulfilled (contactsReducer state (.deleteContactFulfilled deleted)) ms := rfl
          have hitems : (contactsReducer state (.deleteContactFulfilled deleted)).items =
              state.items.filter (fun item => item.id != deleted.id) := rfl
          rw [hstep, ih _ hind2, hitems]
          simp only [addedContacts, deletedIds, List.mem_filter, List.mem_cons, bne_iff_ne, ne_eq,
            not_or]
          constructor
          · rintro ⟨(⟨hc, hcd⟩ | hc), hdel⟩
            · exact ⟨Or.inl hc, hcd, hdel⟩
            · exact ⟨Or.inr hc, hne c hc, hdel⟩
          · rintro ⟨(hc | hc), hcd, hdel⟩
            · exact ⟨Or.inl ⟨hc, hcd⟩, hdel⟩
            · exact ⟨Or.inr hc, hdel⟩

/-- C18 (as stated, refuted): an add that creates a contact and a delete of that
contact's id, both successful, applied to the empty list: add then delete leaves no
contact, delete then add leaves the contact. -/
theorem add_delete_order_counterexample :
    List.Perm [Mutation.add johnDoe, Mutation.delete johnDoe]
      [Mutation.delete johnDoe, Mutation.add johnDoe] ∧
    (applyFulfilled contactsInitialState [Mutation.add johnDoe, Mutation.delete johnDoe]).items =
      [] ∧
    (applyFulfilled contactsInitialState [Mutation.delete johnDoe, Mutation.add johnDoe]).items =
      [johnDoe] :=
  ⟨List.Perm.swap _ _ [], by decide, by decide⟩

/-- C18 (amended): for every initial contact list and every collection `ms` of
successful add and delete operations in which no delete targets the id of a contact
one of the adds created, the set of items after applying all their `fulfilled` actions
in any completion order `ms1` is the same: a contact is in it exactly when it is an
initial item or an added contact and its id is not one of the deleted ids. -/
theorem add_delete_order_independent (state : ContactsState) (ms ms1 : List Mutation)
    (hperm : List.Perm ms ms1)
    (hind : ∀ a ∈ addedContacts ms, a.id ∉ deletedIds ms) :
    (∀ c : Contact, c ∈ (applyFulfilled state ms1).items ↔
      (c ∈ state.items ∨ c ∈ addedContacts ms) ∧ c.id ∉ deletedIds ms) ∧
    (∀ c : Contact, c ∈ (applyFulfilled state ms1).items ↔ c ∈ (applyFulfilled state ms).items) := by
  have hadd : ∀ c : Contact, c ∈ addedContacts ms1 ↔ c ∈ addedContacts ms := fun c => by
    rw [mem_addedContacts, mem_addedContacts, hperm.mem_iff]
  have hdel : ∀ i : String, i ∈ deletedIds ms1 ↔ i ∈ deletedIds ms := fun i => by
    rw [mem_deletedIds, mem_deletedIds]
    constructor
    · rintro ⟨d, hd, hi⟩
      exact ⟨d, hperm.mem_iff.mpr hd, hi⟩
    · rintro ⟨d, hd, hi⟩
      exact ⟨d, hperm.mem_iff.mp hd, hi⟩
  have hind1 : ∀ a ∈ addedContacts ms1, a.id ∉ deletedIds ms1 := fun a ha hmem =>
    hind a ((hadd a).mp ha) ((hdel a.id).mp hmem)
  have h1 : ∀ c : Contact, c ∈ (applyFulfilled state ms1).items ↔
      (c ∈ state.items ∨ c ∈ addedContacts ms) ∧ c.id ∉ deletedIds ms := fun c => by
    rw [mem_applyFulfilled c ms1 state hind1, hadd, hdel]
  exact ⟨h1, fun c => by rw [h1 c, mem_applyFulfilled c ms state hind]⟩

/-- C18 (amended), at a concrete input: with John Doe in the list, the add of Ann and
the delete of John Doe leave Ann alone in either order. -/
theorem add_delete_order_independent_witness :
    (∀ c : Contact,
      c ∈ (applyFulfilled { items := [johnDoe], loading := false, error := none }
          [Mutation.delete johnDoe, Mutation.add ann]).items ↔
      c ∈ (applyFulfilled { items := [johnDoe], loading := false, error := none }
          [Mutation.add ann, Mutation.delete johnDoe]).items) ∧
    (applyFulfilled { items := [johnDoe], loading := false, error := none }
        [Mutation.delete johnDoe, Mutation.add ann]).items = [ann] ∧
    (applyFulfilled { items := [johnDoe], loading := false, error := none }
        [Mutation.add ann, Mutation.delete johnDoe]).items = [ann] :=
  ⟨(add_delete_order_independent _ [Mutation.add ann, Mutation.delete johnDoe]
      [Mutation.delete johnDoe, Mutation.add ann] (List.Perm.swap _ _ []) (by decide)).2,
    by decide, by decide⟩

/-! ## Unique ids -/

/-- Along a run the ids of the items stay pairwise distinct and all among the ids seen
so far, where a successful fetch and a successful add extend the ids seen as
`idsNewToClient` does. -/
theorem uniqueIds_run : ∀ (es : List ContactEvent) (s s1 : Repo) (seen : List String),
    (s.world.store.contacts.items.map Contact.id).Nodup →
    (∀ i ∈ s.world.store.contacts.items.map Contact.id, i ∈ seen) →
    Repo.run anyEvent s es = some s1 →
    idsNewToClient seen es = true →
    (s1.world.store.contacts.items.map Contact.id).Nodup := by
  intro es
  induction es with
  | nil =>
      intro s s1 seen hnd _ hrun _
      cases hrun
      exact hnd
  | cons e es ih =>
      intro s s1 seen hnd hsub hrun hnew
      unfold Repo.run at hrun
      simp only [anyEvent, if_true] at hrun
      split at hrun
      case h_2 => cases hrun
      case h_1 s2 hs =>
      cases e with
      | fetchContactsIssue =>
          cases hs
          refine ih _ s1 seen ?_ ?_ hrun hnew <;> assumption
      | addContactIssue newContact =>
          cases hs
          refine ih _ s1 seen ?_ ?_ hrun hnew <;> assumption
      | deleteContactIssue contactId =>
          cases hs
          refine ih _ s1 seen ?_ ?_ hrun hnew <;> assumption
      | logOutIssue =>
          cases hs
          refine ih _ s1 seen ?_ ?_ hrun hnew <;> assumption
      | fetchContactsSettle response =>
          obtain ⟨-, rfl⟩ := Repo.settle_some hs
          cases response with
          | error message => refine ih _ s1 seen ?_ ?_ hrun hnew <;> assumption
          | ok data =>
              have h2 : distinctIds data = true ∧
                  idsNewToClient (data.map Contact.id ++ seen) es = true := by
                simpa [idsNewToClient] using hnew
              refine ih _ s1 (data.map Contact.id ++ seen) ?_ ?_ hrun h2.2
              · simpa [distinctIds] using h2.1
              · intro i hi
                exact List.mem_append_left _ hi
      | addContactSettle response =>
          obtain ⟨-, rfl⟩ := Repo.settle_some hs
          cases response with
          | error message => refine ih _ s1 seen ?_ ?_ hrun hnew <;> assumption
          | ok data =>
              have h2 : data.id ∉ seen ∧ idsNewToClient (data.id :: seen) es = true := by
                simpa [idsNewToClient] using hnew
              have hitems : (addContactSettle (.ok data) s.world).1.store.contacts.items =
                  s.world.store.contacts.items ++ [data] := rfl
              refine ih _ s1 (data.id :: seen) ?_ ?_ hrun h2.2
              · rw [hitems, List.map_append, List.nodup_append]
                refine ⟨hnd, List.nodup_singleton _, ?_⟩
                intro i hi hi2
                have : i = data.id := by simpa using hi2
                exact h2.1 (this ▸ hsub i hi)
              · intro i hi
                rw [hitems, List.map_append, List.mem_append] at hi
                rcases hi with hi | hi
                · exact List.mem_cons_of_mem _ (hsub i hi)
                · have : i = data.id := by simpa using hi
                  exact this ▸ List.mem_cons_self _ _
      | deleteContactSettle response =>
          obtain ⟨-, rfl⟩ := Repo.settle_some hs
          cases response with
          | error message => refine ih _ s1 seen ?_ ?_ hrun hnew <;> assumption
          | ok data =>
              have hitems : (deleteContactSettle (.ok data) s.world).1.store.contacts.items =
                  s.world.store.contacts.items.filter (fun item => item.id != data.id) := rfl
              have hsl : ((s.world.store.contacts.items.filter
                  (fun item => item.id != data.id)).map Contact.id).Sublist
                  (s.world.store.contacts.items.map Contact.id) :=
                (List.filter_sublist _).map _
              refine ih _ s1 seen ?_ ?_ hrun hnew
              · rw [hitems]
                exact hnd.sublist hsl
              · intro i hi
                rw [hitems] at hi
                exact hsub i (hsl.subset hi)
      | logOutSettle response =>
          obtain ⟨-, rfl⟩ := Repo.settle_some hs
          cases response with
          | error message => refine ih _ s1 seen ?_ ?_ hrun hnew <;> assumption
          | ok u =>
              refine ih _ s1 seen ?_ ?_ hrun hnew
              · exact List.nodup_nil
              · intro i hi
                cases hi

/-- C19 (as stated, refuted): an add and a fetch overlap. The service, with no contact
stored before, creates John Doe with a fresh id and then answers the fetch with the
list holding him; the fetched list arrives first and the answer to the add second. The
service assumptions hold and the list ends with John Doe twice. -/
theorem unique_ids_counterexample :
    serviceAssignsFreshIds []
        [.addContactIssue [("name", "John Doe"), ("number", "555")], .fetchContactsIssue,
          .fetchContactsSettle (.ok [johnDoe]), .addContactSettle (.ok johnDoe)] = true ∧
    (Repo.run anyEvent Repo.startup
        [.addContactIssue [("name", "John Doe"), ("number", "555")], .fetchContactsIssue,
          .fetchContactsSettle (.ok [johnDoe]), .addContactSettle (.ok johnDoe)]).map
        (fun s => (s.world.store.contacts.items, distinctIds s.world.store.contacts.items)) =
      some ([johnDoe, johnDoe], false) := by
  decide

/-- C19 (amended): given that every fetched list has pairwise distinct ids and that the
id of each created contact is new to the client when its add completes (it is in no
list fetched before and is the id of no contact created before), no interleaving of
fetch, add, delete and logout events from process start produces a list with two
contacts of the same id. -/
theorem unique_ids_when_new_to_client (es : List ContactEvent) (s : Repo)
    (hrun : Repo.run anyEvent Repo.startup es = some s)
    (hnew : idsNewToClient [] es = true) :
    (s.world.store.contacts.items.map Contact.id).Nodup :=
  uniqueIds_run es Repo.startup s [] List.nodup_nil (fun _ h => by cases h) hrun hnew

/-- C19 (amended), at a concrete input: the add and the fetch overlap and the answer to
the add arrives before the fetched list; the list ends with John Doe once. -/
theorem unique_ids_when_new_to_client_witness :
    Repo.run anyEvent Repo.startup addThenFetch = some addThenFetchEnd ∧
    idsNewToClient [] addThenFetch = true ∧
    addThenFetchEnd.world.store.contacts.items = [johnDoe] ∧
    (addThenFetchEnd.world.store.contacts.items.map Contact.id).Nodup :=
  ⟨by decide, by decide, rfl,
    unique_ids_when_new_to_client addThenFetch addThenFetchEnd (by decide) (by decide)⟩

/-! ## The filtered view -/

/-- The meaning of `includes`: the characters of `search` occur in `s` as one contiguous
run. -/
theorem includes_iff (s search : String) :
    includes s search = true ↔ ∃ before after : List Char, s.data = before ++ search.data ++ after := by
  unfold includes
  rw [decide_eq_true_iff]
  constructor
  · rintro ⟨before, after, h⟩
    exact ⟨before, after, h.symm⟩
  · rintro ⟨before, after, h⟩
    exact ⟨before, after, h.symm⟩

/-- C20: for every contact list and filter string `f`, `selectFilteredContacts` returns
all of the items, unchanged, when `f` is empty; otherwise it returns, in original order
(as a sublist of the items), exactly the contacts whose lower-cased name contains the
lower-cased `f`: a contact is returned exactly when it is in the items and matches.
Lower-casing is any function `toLowerCase`; with the ASCII one, the filter "JO" on John
Doe and Ann returns John Doe. -/
theorem selectFilteredContacts_filters (toLowerCase : String → String) (state : RootState) :
    selectFilteredContacts toLowerCase state =
      selectFilteredContacts.resultFunc toLowerCase state.contacts.items state.filters.name ∧
    (if state.filters.name = "" then
      selectFilteredContacts toLowerCase state = state.contacts.items
    else
      (selectFilteredContacts toLowerCase state).Sublist state.contacts.items ∧
      (∀ c : Contact, c ∈ selectFilteredContacts toLowerCase state ↔
        c ∈ state.contacts.items ∧
          includes (toLowerCase c.name) (toLowerCase state.filters.name) = true) ∧
      selectFilteredContacts toLowerCase state =
        state.contacts.items.filter
          (fun c => includes (toLowerCase c.name) (toLowerCase state.filters.name))) ∧
    selectFilteredContacts.resultFunc asciiLowerCase [johnDoe, ann] "JO" = [johnDoe] ∧
    selectFilteredContacts.resultFunc asciiLowerCase [johnDoe, ann] "" = [johnDoe, ann] := by
  refine ⟨rfl, ?_, by decide, by decide⟩
  unfold selectFilteredContacts selectFilteredContacts.resultFunc selectContacts selectNameFilter
  split
  · rfl
  · refine ⟨List.filter_sublist _, fun c => ?_, rfl⟩
    simp [List.mem_filter]

/-! ## Route guards -/

/-- C21: for every session state, target and fallback, the private guard returns the
fallback (a `Navigate` to it) exactly when `isLoggedIn = false` and
`isRefreshing = false`, and returns the protected target exactly otherwise; with
`isLoggedIn = false` and `isRefreshing = true` it returns the target. -/
theorem privateRoute_guard {α : Type} (target : α) (fallback : String) (state : RootState) :
    (PrivateRoute target (some fallback) state = .navigate fallback ↔
      (state.auth.isLoggedIn = false ∧ state.auth.isRefreshing = false)) ∧
    (PrivateRoute target (some fallback) state = .component target ↔
      ¬(state.auth.isLoggedIn = false ∧ state.auth.isRefreshing = false)) ∧
    (∀ (user : User) (token : Option String),
      PrivateRoute target (some fallback)
        { state with
          auth := { user := user, token := token, isLoggedIn := false, isRefreshing := true } } =
        .component target) ∧
    PrivateRoute target none
        { state with auth := { state.auth with isLoggedIn := false, isRefreshing := false } } =
      .navigate "/" := by
  refine ⟨?_, ?_, fun _ _ => rfl, rfl⟩
  · unfold PrivateRoute selectIsLoggedIn selectIsRefreshing
    cases state.auth.isLoggedIn <;> cases state.auth.isRefreshing <;> simp
  · unfold PrivateRoute selectIsLoggedIn selectIsRefreshing
    cases state.auth.isLoggedIn <;> cases state.auth.isRefreshing <;> simp

/-- C22: for every session state, target and fallback, the restricted guard returns the
fallback (a `Navigate` to it) exactly when `isLoggedIn = true` and the target exactly
otherwise; changing `isRefreshing` does not change what it returns. -/
theorem restrictedRoute_guard {α : Type} (target : α) (fallback : String) (state : RootState) :
    (RestrictedRoute target (some fallback) state = .navigate fallback ↔
      state.auth.isLoggedIn = true) ∧
    (RestrictedRoute target (some fallback) state = .component target ↔
      state.auth.isLoggedIn = false) ∧
    (∀ isRefreshing : Bool,
      RestrictedRoute target (some fallback)
        { state with auth := { state.auth with isRefreshing := isRefreshing } } =
        RestrictedRoute target (some fallback) state) := by
  refine ⟨?_, ?_, fun _ => rfl⟩
  · unfold RestrictedRoute selectIsLoggedIn
    cases state.auth.isLoggedIn <;> simp
  · unfold RestrictedRoute selectIsLoggedIn
    cases state.auth.isLoggedIn <;> simp

/-- C28: with the routes of `App.jsx`, no session state produces a redirect loop. In
every state at least one of the private guard of /contacts and the restricted guard of
/login (and of /register) returns its target, so whenever one returns its fallback the
other returns its target; and from every path, following `Navigate` elements reaches a
page within two routes. -/
theorem no_redirect_loop (state : RootState) :
    (App.routes "/contacts" state = .component .contacts ∨
      App.routes "/login" state = .component .login) ∧
    (App.routes "/contacts" state = .component .contacts ∨
      App.routes "/register" state = .component .registration) ∧
    (App.routes "/contacts" state = .navigate "/login" ∨
      App.routes "/contacts" state = .component .contacts) ∧
    (App.routes "/login" state = .navigate "/contacts" ∨
      App.routes "/login" state = .component .login) ∧
    (App.routes "/register" state = .navigate "/contacts" ∨
      App.routes "/register" state = .component .registration) ∧
    (∀ path : String, (App.follow 2 path state).isSome = true) := by
  have hc : App.routes "/contacts" state = PrivateRoute .contacts (some "/login") state := by
    simp [App.routes]
  have hl : App.routes "/login" state = RestrictedRoute .login (some "/contacts") state := by
    simp [App.routes]
  have hr : App.routes "/register" state =
      RestrictedRoute .registration (some "/contacts") state := by
    simp [App.routes]
  have hcases : (App.routes "/contacts" state = .component .contacts ∧
        App.routes "/login" state = .navigate "/contacts" ∧
        App.routes "/register" state = .navigate "/contacts") ∨
      (App.routes "/contacts" state = .navigate "/login" ∧
        App.routes "/login" state = .component .login ∧
        App.routes "/register" state = .component .registration) ∨
      (App.routes "/contacts" state = .component .contacts ∧
        App.routes "/login" state = .component .login ∧
        App.routes "/register" state = .component .registration) := by
    rw [hc, hl, hr]
    unfold PrivateRoute RestrictedRoute selectIsLoggedIn selectIsRefreshing
    cases state.auth.isLoggedIn <;> cases state.auth.isRefreshing <;> simp
  have hfollow : ∀ path : String, (App.follow 2 path state).isSome = true := by
    intro path
    by_cases h1 : path = "/"
    · simp [App.follow, App.routes, h1]
    by_cases h2 : path = "/register"
    · subst h2
      rcases hcases with ⟨h, -, hreg⟩ | ⟨-, -, hreg⟩ | ⟨-, -, hreg⟩
      · simp [App.follow, hreg, h]
      · simp [App.follow, hreg]
      · simp [App.follow, hreg]
    by_cases h3 : path = "/login"
    · subst h3
      rcases hcases with ⟨h, hlog, -⟩ | ⟨-, hlog, -⟩ | ⟨-, hlog, -⟩
      · simp [App.follow, hlog, h]
      · simp [App.follow, hlog]
      · simp [App.follow, hlog]
    by_cases h4 : path = "/contacts"
    · subst h4
      rcases hcases with ⟨h, -, -⟩ | ⟨h, hlog, -⟩ | ⟨h, -, -⟩
      · simp [App.follow, h]
      · simp [App.follow, h, hlog]
      · simp [App.follow, h]
    · simp [App.follow, App.routes, h1, h2, h3, h4]
  rcases hcases with ⟨h, hlog, hreg⟩ | ⟨h, hlog, hreg⟩ | ⟨h, hlog, hreg⟩
  · exact ⟨Or.inl h, Or.inl h, Or.inr h, Or.inl hlog, Or.inl hreg, hfollow⟩
  · exact ⟨Or.inr hlog, Or.inr hreg, Or.inl h, Or.inr hlog, Or.inr hreg, hfollow⟩
  · exact ⟨Or.inl h, Or.inl h, Or.inr h, Or.inr hlog, Or.inr hreg, hfollow⟩

/-! ## The add form -/

/-- The meaning of `isDuplicate`: some contact of the list has the name up to
`toLowerCase`. -/
theorem isDuplicate_iff (toLowerCase : String → String) (contacts : List Contact) (name : String) :
    isDuplicate toLowerCase contacts name = true ↔
      ∃ contact ∈ contacts, toLowerCase contact.name = toLowerCase name := by
  simp [isDuplicate, List.any_eq_true]

/-- C23: for every contact list and every submitted name, if some contact in the list has
a name equal to the submitted name ignoring case (equal after `toLowerCase`), the add
submission is stopped locally: `handleSubmit` shows the error toast and returns, no
action is dispatched and no request is sent (the world, store and axios, is unchanged),
so the list is unchanged. -/
theorem duplicate_name_rejected (toLowerCase : String → String) (name number : String) (w : World)
    (hdup : ∃ contact ∈ w.store.contacts.items, toLowerCase contact.name = toLowerCase name) :
    (handleSubmitIssue toLowerCase name number w).1 = w ∧
    (handleSubmitIssue toLowerCase name number w).2 =
      .duplicate (name ++ " is already in your contacts!") ∧
    (handleSubmitIssue toLowerCase name number w).1.axios.sent = w.axios.sent ∧
    (handleSubmitIssue toLowerCase name number w).1.store.contacts.items =
      w.store.contacts.items := by
  have h : isDuplicate toLowerCase (selectContacts w.store) name = true :=
    (isDuplicate_iff toLowerCase _ name).mpr hdup
  unfold handleSubmitIssue
  rw [if_pos h]
  exact ⟨rfl, rfl, rfl, rfl⟩

/-- C23, at a concrete input: submitting "John Doe" when "john doe" is in the list. -/
theorem duplicate_name_rejected_witness :
    (handleSubmitIssue asciiLowerCase "John Doe" "555" lowerJohnWorld).1 = lowerJohnWorld ∧
    (handleSubmitIssue asciiLowerCase "John Doe" "555" lowerJohnWorld).2 =
      .duplicate "John Doe is already in your contacts!" ∧
    (handleSubmitIssue asciiLowerCase "John Doe" "555" lowerJohnWorld).1.axios.sent = [] ∧
    (handleSubmitIssue asciiLowerCase "John Doe" "555" lowerJohnWorld).1.store.contacts.items =
      [{ id := "1", name := "john doe", number := "555" }] :=
  duplicate_name_rejected asciiLowerCase "John Doe" "555" lowerJohnWorld
    ⟨{ id := "1", name := "john doe", number := "555" }, by decide, by decide⟩

/-! ## Persistence -/

/-- C24: only the token is persisted. For every store state, persisting it and
rehydrating at the next process start yields an auth state whose token is the token of
the state while `user`, `isLoggedIn` and `isRefreshing` have their initial values, and
a contact list and a filter in their initial state (`[]`, empty string): the rehydrated
store is the startup store of that token. What is stored holds the token and no other
key. -/
theorem only_token_persisted (state : RootState) :
    persist state =
      { user := none, token := some state.auth.token, isLoggedIn := none, isRefreshing := none } ∧
    (rehydrate (persist state)).auth.token = state.auth.token ∧
    (rehydrate (persist state)).auth.user = { name := none, email := none } ∧
    (rehydrate (persist state)).auth.isLoggedIn = false ∧
    (rehydrate (persist state)).auth.isRefreshing = false ∧
    (rehydrate (persist state)).contacts = { items := [], loading := false, error := none } ∧
    (rehydrate (persist state)).filters = { name := "" } ∧
    rehydrate (persist state) = startup state.auth.token := by
  have hp : persist state =
      { user := none, token := some state.auth.token, isLoggedIn := none,
        isRefreshing := none } := by
    simp [persist, persistAuth, authPersistConfig.whitelist]
  rw [hp]
  exact ⟨rfl, rfl, rfl, rfl, rfl, rfl, rfl, rfl⟩

/-! ## Failure of the network call -/

/-- C25: for each of the seven operations, when its network call fails with an error of
message `message`, the operation resolves (it returns a result, nothing is thrown) to
its `rejected` action with value `message`; that result differs from every `fulfilled`
result of the operation; and no second attempt is made: the operation sent one request
when it started and its completion sends none. -/
theorem failed_call_resolves_rejected (message : String) (w : World) :
    ((registerSettle (.error message) w).2 = .registerRejected message ∧
      (logInSettle (.error message) w).2 = .logInRejected message ∧
      (logOutSettle (.error message) w).2 = .logOutRejected message ∧
      (refreshUserSettle (some (.error message)) w).2 = .refreshUserRejected message ∧
      (fetchContactsSettle (.error message) w).2 = .fetchContactsRejected message ∧
      (addContactSettle (.error message) w).2 = .addContactRejected message ∧
      (deleteContactSettle (.error message) w).2 = .deleteContactRejected message) ∧
    ((∀ data : AuthPayload,
        Action.registerRejected message ≠ .registerFulfilled data ∧
        Action.logInRejected message ≠ .logInFulfilled data) ∧
      Action.logOutRejected message ≠ .logOutFulfilled ∧
      (∀ data : User, Action.refreshUserRejected message ≠ .refreshUserFulfilled data) ∧
      (∀ data : List Contact, Action.fetchContactsRejected message ≠ .fetchContactsFulfilled data) ∧
      (∀ data : Contact,
        Action.addContactRejected message ≠ .addContactFulfilled data ∧
        Action.deleteContactRejected message ≠ .deleteContactFulfilled data)) ∧
    ((registerSettle (.error message) w).1.axios = w.axios ∧
      (logInSettle (.error message) w).1.axios = w.axios ∧
      (logOutSettle (.error message) w).1.axios = w.axios ∧
      (refreshUserSettle (some (.error message)) w).1.axios = w.axios ∧
      (fetchContactsSettle (.error message) w).1.axios = w.axios ∧
      (addContactSettle (.error message) w).1.axios = w.axios ∧
      (deleteContactSettle (.error message) w).1.axios = w.axios) ∧
    ((∀ credentials : List (String × String),
        (registerIssue credentials w).1.axios.sent.length = w.axios.sent.length + 1 ∧
        (logInIssue credentials w).1.axios.sent.length = w.axios.sent.length + 1 ∧
        (addContactIssue credentials w).1.axios.sent.length = w.axios.sent.length + 1) ∧
      (logOutIssue w).1.axios.sent.length = w.axios.sent.length + 1 ∧
      (refreshUserIssue w).1.axios.sent.length =
        w.axios.sent.length + (if w.store.auth.token = none then 0 else 1) ∧
      (fetchContactsIssue w).1.axios.sent.length = w.axios.sent.length + 1 ∧
      (∀ contactId : String,
        (deleteContactIssue contactId w).1.axios.sent.length = w.axios.sent.length + 1)) := by
  refine ⟨⟨rfl, rfl, rfl, rfl, rfl, rfl, rfl⟩, ⟨fun _ => ⟨?_, ?_⟩, ?_, fun _ => ?_, fun _ => ?_,
    fun _ => ⟨?_, ?_⟩⟩, ⟨rfl, rfl, rfl, rfl, rfl, rfl, rfl⟩, ⟨fun _ => ⟨?_, ?_, ?_⟩, ?_, ?_, ?_,
    fun _ => ?_⟩⟩
  any_goals (intro h; cases h)
  any_goals simp [registerIssue, logInIssue, addContactIssue, logOutIssue, fetchContactsIssue,
    deleteContactIssue, World.request, World.dispatch]
  unfold refreshUserIssue
  cases h : w.store.auth.token <;>
    simp [World.dispatch, World.request, rootReducer, authReducer, setAuthHeader, h]

/-! ## Mutual exclusion of the session states -/

/-- A property kept by every guarded step of a session is kept by every guarded run. -/
theorem Session.run_keeps {guard : Session → Event → Bool} {P : Session → Prop}
    (hstep : ∀ (s : Session) (e : Event) (s1 : Session),
      P s → guard s e = true → s.step e = some s1 → P s1) :
    ∀ (es : List Event) {s s1 : Session}, P s → Session.run guard s es = some s1 → P s1 := by
  intro es
  induction es with
  | nil =>
      intro s s1 hP h
      cases h
      exact hP
  | cons e es ih =>
      intro s s1 hP h
      unfold Session.run at h
      split at h
      · rename_i hg
        split at h
        · rename_i s2 hs
          exact ih (hstep s e s2 hP hg hs) h
        · cases h
      · cases h

/-- Every step admitted by `exclusiveGuard` keeps: not both `isRefreshing` and
`isLoggedIn`. -/
theorem exclusive_step (s : Session) (e : Event) (s1 : Session)
    (hinv : (s.world.store.auth.isRefreshing && s.world.store.auth.isLoggedIn) = false)
    (hg : exclusiveGuard s e = true) (hs : s.step e = some s1) :
    (s1.world.store.auth.isRefreshing && s1.world.store.auth.isLoggedIn) = false := by
  cases e with
  | registerIssue credentials =>
      cases hs
      exact hinv
  | logInIssue credentials =>
      cases hs
      exact hinv
  | logOutIssue =>
      cases hs
      exact hinv
  | registerSettle response =>
      obtain ⟨-, rfl⟩ := Session.settle_eq_some hs
      cases response with
      | error message => exact hinv
      | ok data =>
          have hr : s.world.store.auth.isRefreshing = false := by
            simpa [exclusiveGuard] using hg
          show (s.world.store.auth.isRefreshing && true) = false
          simp [hr]
  | logInSettle response =>
      obtain ⟨-, rfl⟩ := Session.settle_eq_some hs
      cases response with
      | error message => exact hinv
      | ok data =>
          have hr : s.world.store.auth.isRefreshing = false := by
            simpa [exclusiveGuard] using hg
          show (s.world.store.auth.isRefreshing && true) = false
          simp [hr]
  | logOutSettle response =>
      obtain ⟨-, rfl⟩ := Session.settle_eq_some hs
      show ((logOutSettle response s.world).1.store.auth.isRefreshing &&
        (logOutSettle response s.world).1.store.auth.isLoggedIn) = false
      rw [logOutSettle_auth]
      simp
  | refreshUserIssue =>
      cases hs
      have hl : s.world.store.auth.isLoggedIn = false := by
        simpa [exclusiveGuard] using hg
      show ((refreshUserIssue s.world).1.store.auth.isRefreshing &&
        (refreshUserIssue s.world).1.store.auth.isLoggedIn) = false
      rw [refreshUserIssue_auth]
      simp [hl]
  | refreshUserSettle response =>
      obtain ⟨-, rfl⟩ := Session.settle_eq_some hs
      cases response with
      | none => rfl
      | some answer =>
          cases answer with
          | error message => rfl
          | ok data => rfl

/-- C26 (as stated, refuted): a run of login and refresh events from the initial state
that ends with `isRefreshing = true` and `isLoggedIn = true`: the user logs in, then a
refresh is started. The same state is reached when the login completes while the
refresh is in flight. -/
theorem exclusive_states_counterexample :
    (Session.run anySessionEvent (Session.startup none)
        [.logInIssue [("email", "a@b.com"), ("password", "secret1")],
          .logInSettle (.ok { user := { name := some "A", email := none }, token := some "tok1" }),
          .refreshUserIssue]).map
        (fun s => (s.world.store.auth.isRefreshing, s.world.store.auth.isLoggedIn)) =
      some (true, true) ∧
    (Session.run anySessionEvent (Session.startup (some "tok0"))
        [.refreshUserIssue,
          .logInIssue [("email", "a@b.com"), ("password", "secret1")],
          .logInSettle (.ok { user := { name := some "A", email := none }, token := some "tok1" })]).map
        (fun s => (s.world.store.auth.isRefreshing, s.world.store.auth.isLoggedIn)) =
      some (true, true) := by
  decide

/-- C26 (amended): in no session state reachable from startup (any persisted token) by an
interleaving of register, login, logout and refresh events in which a refresh is
started only while `isLoggedIn = false` and a login or registration succeeds only while
`isRefreshing = false` are `isRefreshing = true` and `isLoggedIn = true` at the same
time. -/
theorem exclusive_states_guarded (persistedToken : Option String) (es : List Event) (s : Session)
    (hrun : Session.run exclusiveGuard (Session.startup persistedToken) es = some s) :
    ¬(s.world.store.auth.isRefreshing = true ∧ s.world.store.auth.isLoggedIn = true) := by
  have h0 : ((Session.startup persistedToken).world.store.auth.isRefreshing &&
      (Session.startup persistedToken).world.store.auth.isLoggedIn) = false := rfl
  have h : (s.world.store.auth.isRefreshing && s.world.store.auth.isLoggedIn) = false :=
    Session.run_keeps exclusive_step es h0 hrun
  intro hboth
  rw [hboth.1, hboth.2] at h
  cases h

/-- C26 (amended), at a concrete input: the startup refresh is accepted, the user logs
out and logs in again; the session ends Authenticated and not refreshing. -/
theorem exclusive_states_guarded_witness :
    (Session.run exclusiveGuard (Session.startup (some "tok1")) refreshLogoutLogin).map
        (fun s => (s.world.store.auth.isRefreshing, s.world.store.auth.isLoggedIn)) =
      some (false, true) ∧
    Session.run exclusiveGuard (Session.startup (some "tok1")) refreshLogoutLogin =
      some refreshLogoutLoginEnd ∧
    ¬(refreshLogoutLoginEnd.world.store.auth.isRefreshing = true ∧
      refreshLogoutLoginEnd.world.store.auth.isLoggedIn = true) :=
  ⟨by decide, by decide,
    exclusive_states_guarded (some "tok1") refreshLogoutLogin refreshLogoutLoginEnd (by decide)⟩

/-! ## Logout and the initial state -/

/-- C27: `logOut.fulfilled` resets `user`, `token` and `isLoggedIn` and leaves
`isRefreshing` as it was: the result is the initial state when `isRefreshing` was
`false`, and differs from it when `isRefreshing` was `true`. A logout that completes
while a refresh is in flight ends in a state that is not the initial one. -/
theorem logOut_fulfilled_keeps_isRefreshing :
    (∀ state : AuthState,
      authReducer state .logOutFulfilled =
        { initialState with isRefreshing := state.isRefreshing }) ∧
    (∀ state : AuthState,
      authReducer { state with isRefreshing := false } .logOutFulfilled = initialState) ∧
    (∀ state : AuthState,
      authReducer { state with isRefreshing := true } .logOutFulfilled ≠ initialState) ∧
    authReducer
        { user := { name := some "A", email := some "a@b.com" }, token := some "tok1",
          isLoggedIn := true, isRefreshing := true }
        .logOutFulfilled =
      { user := { name := none, email := none }, token := none, isLoggedIn := false,
        isRefreshing := true } ∧
    (Session.run anySessionEvent (Session.startup none)
        [.logInIssue [("email", "a@b.com"), ("password", "secret1")],
          .logInSettle
            (.ok { user := { name := some "A", email := some "a@b.com" }, token := some "tok1" }),
          .refreshUserIssue,
          .logOutIssue]).map (fun s => s.world.store.auth) =
      some { user := { name := some "A", email := some "a@b.com" }, token := some "tok1",
             isLoggedIn := true, isRefreshing := true } ∧
    (Session.run anySessionEvent (Session.startup none)
        [.logInIssue [("email", "a@b.com"), ("password", "secret1")],
          .logInSettle
            (.ok { user := { name := some "A", email := some "a@b.com" }, token := some "tok1" }),
          .refreshUserIssue,
          .logOutIssue,
          .logOutSettle (.ok ())]).map (fun s => s.world.store.auth) =
      some { user := { name := none, email := none }, token := none, isLoggedIn := false,
             isRefreshing := true } := by
  refine ⟨fun _ => rfl, fun _ => rfl, fun state h => ?_, rfl, by decide, by decide⟩
  have h2 := congrArg AuthState.isRefreshing h
  cases h2

/-! ## Refresh and the stored token -/

/-- C29: refresh never changes the stored token. For every session state the three
refresh actions leave `token` as it was, and so does the whole operation whatever the
service answers; after a refresh that the service rejects for the persisted token `T`
the state holds `token = T` together with `isLoggedIn = false` and
`isRefreshing = false`, and what is persisted is still `T`. -/
theorem refresh_keeps_token :
    (∀ (state : AuthState) (data : User) (message : String),
      (authReducer state .refreshUserPending).token = state.token ∧
      (authReducer state (.refreshUserFulfilled data)).token = state.token ∧
      (authReducer state (.refreshUserRejected message)).token = state.token) ∧
    (∀ (w : World) (response : Option (Except String User)),
      (refreshUserSettle response (refreshUserIssue w).1).1.store.auth.token =
        w.store.auth.token) ∧
    (∀ (T : String) (ax : Axios) (message : String),
      (refreshUserSettle (some (.error message))
        (refreshUserIssue { store := startup (some T), axios := ax }).1).1.store.auth =
        { user := { name := none, email := none }, token := some T, isLoggedIn := false,
          isRefreshing := false } ∧
      (persist (refreshUserSettle (some (.error message))
        (refreshUserIssue { store := startup (some T), axios := ax }).1).1.store).token =
        some (some T)) := by
  refine ⟨fun _ _ _ => ⟨rfl, rfl, rfl⟩, fun w response => ?_, fun _ _ _ => ⟨rfl, ?_⟩⟩
  · have h := refreshUserIssue_auth w
    have h2 : (refreshUserSettle response (refreshUserIssue w).1).1.store.auth.token =
        (refreshUserIssue w).1.store.auth.token := by
      cases response with
      | none => rfl
      | some answer => cases answer <;> rfl
    rw [h2, h]
  · simp [persist, persistAuth, authPersistConfig.whitelist]
    rfl

/-! ## Narrowing the filter -/

/-- C30: narrowing the filter never adds results, and filtering is idempotent. For every
contact list and filter strings `f1`, `f2` such that the lower-cased `f1` occurs in the
lower-cased `f2`, the result for `f2` is a sublist of the result for `f1` (every contact
returned for `f2` is returned for `f1`, in the same order); and filtering the result for
`f` again with `f` returns the same list. Lower-casing is any function that keeps the
empty string empty, as `toLowerCase` does. -/
theorem filter_narrowing (toLowerCase : String → String) (contacts : List Contact)
    (f1 f2 : String) (hempty : toLowerCase "" = "")
    (hsub : includes (toLowerCase f2) (toLowerCase f1) = true) :
    (selectFilteredContacts.resultFunc toLowerCase contacts f2).Sublist
      (selectFilteredContacts.resultFunc toLowerCase contacts f1) ∧
    (∀ c : Contact, c ∈ selectFilteredContacts.resultFunc toLowerCase contacts f2 →
      c ∈ selectFilteredContacts.resultFunc toLowerCase contacts f1) ∧
    (∀ f : String,
      selectFilteredContacts.resultFunc toLowerCase
        (selectFilteredContacts.resultFunc toLowerCase contacts f) f =
        selectFilteredContacts.resultFunc toLowerCase contacts f) := by
  have hinfix : (toLowerCase f1).data <:+: (toLowerCase f2).data := by
    simpa [includes] using hsub
  have hsl : (selectFilteredContacts.resultFunc toLowerCase contacts f2).Sublist
      (selectFilteredContacts.resultFunc toLowerCase contacts f1) := by
    unfold selectFilteredContacts.resultFunc
    by_cases h1 : f1 = ""
    · rw [if_pos h1]
      by_cases h2 : f2 = ""
      · rw [if_pos h2]
      · rw [if_neg h2]
        exact List.filter_sublist _
    · rw [if_neg h1]
      by_cases h2 : f2 = ""
      · rw [if_pos h2]
        have hnil : (toLowerCase f1).data = [] := by
          rw [h2, hempty] at hinfix
          exact List.eq_nil_of_infix_nil hinfix
        have hall : contacts.filter
            (fun contact => includes (toLowerCase contact.name) (toLowerCase f1)) = contacts := by
          apply List.filter_eq_self.mpr
          intro c _
          simp [includes, hnil]
        rw [hall]
      · rw [if_neg h2]
        apply List.monotone_filter_right
        intro c hc
        have hc2 : (toLowerCase f2).data <:+: (toLowerCase c.name).data := by
          simpa [includes] using hc
        simpa [includes] using hinfix.trans hc2
  refine ⟨hsl, fun c hc => hsl.subset hc, fun f => ?_⟩
  unfold selectFilteredContacts.resultFunc
  by_cases h : f = ""
  · simp [h]
  · simp [h, List.filter_filter]

/-- C30, at a concrete input: with John Doe and Ann in the list, the filter "JOHN" returns
John Doe, and so does the wider filter "jo". -/
theorem filter_narrowing_witness :
    asciiLowerCase "" = "" ∧
    includes (asciiLowerCase "JOHN") (asciiLowerCase "jo") = true ∧
    selectFilteredContacts.resultFunc asciiLowerCase [johnDoe, ann] "JOHN" = [johnDoe] ∧
    selectFilteredContacts.resultFunc asciiLowerCase [johnDoe, ann] "jo" = [johnDoe] ∧
    (selectFilteredContacts.resultFunc asciiLowerCase [johnDoe, ann] "JOHN").Sublist
      (selectFilteredContacts.resultFunc asciiLowerCase [johnDoe, ann] "jo") :=
  ⟨by decide, by decide, by decide, by decide,
    (filter_narrowing asciiLowerCase [johnDoe, ann] "jo" "JOHN" (by decide) (by decide)).1⟩

/-! ## A fetch that succeeds while other calls are in flight -/

/-- A run of two lists of events is the run of the first followed by the run of the
second. -/
theorem Repo.run_append (guard : Repo → ContactEvent → Bool) :
    ∀ (es1 es2 : List ContactEvent) (s : Repo),
      Repo.run guard s (es1 ++ es2) =
        (Repo.run guard s es1).bind (fun s1 => Repo.run guard s1 es2) := by
  intro es1
  induction es1 with
  | nil =>
      intro es2 s
      rfl
  | cons e es1 ih =>
      intro es2 s
      have h1 : Repo.run guard s (e :: (es1 ++ es2)) =
          (if guard s e then
            match s.step e with
            | some s1 => Repo.run guard s1 (es1 ++ es2)
            | none => none
          else none) := rfl
      have h2 : Repo.run guard s (e :: es1) =
          (if guard s e then
            match s.step e with
            | some s1 => Repo.run guard s1 es1
            | none => none
          else none) := rfl
      rw [List.cons_append, h1, h2]
      by_cases hg : guard s e = true
      · rw [if_pos hg, if_pos hg]
        cases s.step e with
        | none => rfl
        | some s1 => exact ih es2 s1
      · rw [if_neg hg, if_neg hg]
        rfl

/-- Every step other than a failing fetch, add or delete keeps `error = null`. -/
theorem error_step (s : Repo) (e : ContactEvent) (s1 : Repo)
    (hinv : s.world.store.contacts.error = none)
    (hg : noFailedCall s e = true) (hs : s.step e = some s1) :
    s1.world.store.contacts.error = none := by
  cases e with
  | fetchContactsIssue =>
      cases hs
      rfl
  | addContactIssue newContact =>
      cases hs
      rfl
  | deleteContactIssue contactId =>
      cases hs
      rfl
  | logOutIssue =>
      cases hs
      exact hinv
  | fetchContactsSettle response =>
      obtain ⟨-, rfl⟩ := Repo.settle_some hs
      cases response with
      | error message => cases hg
      | ok data => exact hinv
  | addContactSettle response =>
      obtain ⟨-, rfl⟩ := Repo.settle_some hs
      cases response with
      | error message => cases hg
      | ok data => exact hinv
  | deleteContactSettle response =>
      obtain ⟨-, rfl⟩ := Repo.settle_some hs
      cases response with
      | error message => cases hg
      | ok data => exact hinv
  | logOutSettle response =>
      obtain ⟨-, rfl⟩ := Repo.settle_some hs
      cases response with
      | error message => exact hinv
      | ok u => rfl

/-- C13 (as stated, refuted): a fetch is started, an add is started and fails with
status 400, then the fetch succeeds with the list holding John Doe:
`fetchContacts.pending` was followed by `fetchContacts.fulfilled`, `items` is the
server list and `loading = false`, but `error` holds the message of the failed add. -/
theorem fetchContacts_error_counterexample :
    (Repo.run anyEvent Repo.startup
        [.fetchContactsIssue,
          .addContactIssue [("name", "Ann"), ("number", "556")],
          .addContactSettle (.error "Request failed with status code 400"),
          .fetchContactsSettle (.ok [johnDoe])]).map (fun s => s.world.store.contacts) =
      some { items := [johnDoe], loading := false,
             error := some "Request failed with status code 400" } ∧
    contactsReducer
        { items := [], loading := true, error := some "Request failed with status code 400" }
        (.fetchContactsFulfilled [johnDoe]) =
      { items := [johnDoe], loading := false,
        error := some "Request failed with status code 400" } := by
  decide

/-- C13 (amended): for every contact list state and every server list `L`,
`fetchContacts.fulfilled` with payload `L` leaves `items = L` (the list as the service
returned it) and `loading = false` and leaves `error` as it was; `error` was set to
`null` by `fetchContacts.pending`, so a fetch that succeeds ends with `items = L`,
`error = null` and `loading = false` when no fetch, add or delete fails between its
start and its completion, whatever else starts or completes in between. -/
theorem fetchContacts_success_without_failure (r : Repo) (es : List ContactEvent) (s : Repo)
    (L : List Contact)
    (hrun : Repo.run noFailedCall r
      (.fetchContactsIssue :: (es ++ [.fetchContactsSettle (.ok L)])) = some s) :
    s.world.store.contacts = { items := L, loading := false, error := none } ∧
    (∀ state : ContactsState,
      contactsReducer state (.fetchContactsFulfilled L) =
        { items := L, loading := false, error := state.error } ∧
      (contactsReducer state .fetchContactsPending).error = none) := by
  refine ⟨?_, fun _ => ⟨rfl, rfl⟩⟩
  unfold Repo.run at hrun
  simp only [noFailedCall, if_true, Repo.step] at hrun
  rw [Repo.run_append] at hrun
  cases h2 : Repo.run noFailedCall
      { world := (fetchContactsIssue r.world).1, inFlight := .fetchContacts :: r.inFlight } es with
  | none =>
      rw [h2] at hrun
      cases hrun
  | some s2 =>
      rw [h2] at hrun
      have herr : s2.world.store.contacts.error = none :=
        Repo.run_invariant error_step es rfl h2
      have hlast : Repo.run noFailedCall s2 [.fetchContactsSettle (.ok L)] = some s := hrun
      unfold Repo.run at hlast
      simp only [noFailedCall, if_true, Repo.step] at hlast
      split at hlast
      · rename_i s3 hs3
        obtain ⟨-, rfl⟩ := Repo.settle_some hs3
        unfold Repo.run at hlast
        cases hlast
        have hc : (fetchContactsSettle (.ok L) s2.world).1.store.contacts =
            { items := L, loading := false, error := s2.world.store.contacts.error } := rfl
        show (fetchContactsSettle (.ok L) s2.world).1.store.contacts = _
        rw [hc, herr]
      · cases hlast

/-- C13 (amended), at a concrete input: a fetch started at process start, an add that
succeeds while the fetch is in flight, then the fetched list with John Doe and Ann. -/
theorem fetchContacts_success_without_failure_witness :
    Repo.run noFailedCall Repo.startup
        (.fetchContactsIssue :: (addDuringFetch ++ [.fetchContactsSettle (.ok [johnDoe, ann])])) =
      some addDuringFetchEnd ∧
    addDuringFetchEnd.world.store.contacts =
      { items := [johnDoe, ann], loading := false, error := none } :=
  ⟨by decide,
    (fetchContacts_success_without_failure Repo.startup addDuringFetch addDuringFetchEnd
      [johnDoe, ann] (by decide)).1⟩

end Phonebook
